import Mathlib

/-!
Shallow embedding of the `mac-mcp` tool server (`src/index.js`).

The server registers a static catalog of tools, dispatches tool calls by
name to handler functions, and each handler shells out to operating-system
commands (`execAsync`) and reshapes their textual output.

Modelling decisions:
* An external-command invocation is modelled by an environment
  `Env : Nat → String → Except String String`: given the index of the call
  (how many commands this invocation has issued so far) and the command
  string, it either succeeds with the stdout text or fails with an error
  message (a rejected promise).  Indexing by call count lets the same
  command succeed at one point of a run and fail at another, which is how
  the real machine can behave.
* Handler bodies run in the monad `M`: state-passing of the call counter,
  a trace of every command issued (in order), and an `Except` layer whose
  `error` constructor means an exception is propagating.  JavaScript
  `try { … } catch (e) { … }` is `tryCatchE`; an `error` escaping a whole
  handler models an uncaught exception propagating past the dispatcher.
* JavaScript numbers that arrive as tool arguments are modelled as `Int`
  (all numeric parameters of this server are counts/ids); numbers computed
  from command output via `parseFloat` are modelled exactly by the
  rational type `JNum` below, with `Option` `none` standing for `NaN`.
* JavaScript string primitives used by the source (`split(/\s+/)`,
  `trim`, `parseInt`, `parseFloat`, first-occurrence `replace`,
  `includes`, `toFixed`, and the few fixed regular expressions) are given
  executable Lean models below.
-/

/-- Strip leading and trailing whitespace (JavaScript `s.trim()`),
implemented by structural recursion on the character list so that the
kernel can evaluate it. -/
def String.jsTrim (s : String) : String :=
  String.mk (((s.data.dropWhile Char.isWhitespace).reverse.dropWhile Char.isWhitespace).reverse)

/-- Worker for `jsSplitWs`, with the remaining input length as fuel so
the recursion is structural. -/
def jsSplitWsGo : Nat → List Char → List Char → List (List Char)
  | _, [], cur => [cur.reverse]
  | 0, cs, cur => [cur.reverse ++ cs]
  | fuel + 1, c :: rest, cur =>
    if c.isWhitespace then
      cur.reverse :: jsSplitWsGo fuel (rest.dropWhile Char.isWhitespace) []
    else jsSplitWsGo fuel rest (c :: cur)

/-- JavaScript `s.split(/\s+/)`: split on runs of whitespace, keeping an
empty first (resp. last) field when the string starts (resp. ends) with
whitespace. -/
def jsSplitWs (s : String) : List String :=
  (jsSplitWsGo s.data.length s.data []).map String.mk

/-- Worker for `jsSplitOnStr`, with the remaining input length as fuel. -/
def jsSplitOnGo (pat : List Char) : Nat → List Char → List Char → List (List Char)
  | _, [], cur => [cur.reverse]
  | 0, cs, cur => [cur.reverse ++ cs]
  | fuel + 1, c :: rest, cur =>
    if !pat.isEmpty && pat.isPrefixOf (c :: rest) then
      cur.reverse :: jsSplitOnGo pat fuel ((c :: rest).drop pat.length) []
    else jsSplitOnGo pat fuel rest (c :: cur)

/-- JavaScript `s.split(sep)` for a nonempty literal separator. -/
def jsSplitOnStr (s sep : String) : List String :=
  (jsSplitOnGo sep.data s.data.length s.data []).map String.mk

/-- `xs.join(sep)`. -/
def joinSep (sep : String) : List String → String
  | [] => ""
  | [x] => x
  | x :: rest => x ++ sep ++ joinSep sep rest

/-- Worker for `jsReplaceFirst`. -/
def jsReplaceFirstGo (pat rep : List Char) : Nat → List Char → List Char
  | _, [] => []
  | 0, cs => cs
  | fuel + 1, c :: rest =>
    if !pat.isEmpty && pat.isPrefixOf (c :: rest) then
      rep ++ ((c :: rest).drop pat.length)
    else c :: jsReplaceFirstGo pat rep fuel rest

/-- JavaScript `s.replace(pat, rep)` with a string pattern: replace the
first occurrence only. -/
def jsReplaceFirst (s pat rep : String) : String :=
  String.mk (jsReplaceFirstGo pat.data rep.data s.data.length s.data)

/-- Worker for `jsReplaceAll`. -/
def jsReplaceAllGo (pat rep : List Char) : Nat → List Char → List Char
  | _, [] => []
  | 0, cs => cs
  | fuel + 1, c :: rest =>
    if !pat.isEmpty && pat.isPrefixOf (c :: rest) then
      rep ++ jsReplaceAllGo pat rep fuel ((c :: rest).drop pat.length)
    else c :: jsReplaceAllGo pat rep fuel rest

/-- JavaScript `s.replace(/pat/g, rep)`: replace every occurrence,
scanning left to right and not rescanning the replacement. -/
def jsReplaceAll (s pat rep : String) : String :=
  String.mk (jsReplaceAllGo pat.data rep.data s.data.length s.data)

/-- JavaScript `s.includes(sub)`: some position of `s` starts with
`sub`. -/
def jsIncludes (s sub : String) : Bool :=
  (List.range (s.data.length + 1)).any (fun i => sub.data.isPrefixOf (s.data.drop i))

/-- `sub` occurs somewhere in `s` (specification-side notion of a string
containing a word). -/
def strContains (s sub : String) : Prop :=
  ∃ p q, s = p ++ sub ++ q

/-- Digits to a natural number, most significant first. -/
def digitsToNat (ds : List Char) : Nat :=
  ds.foldl (fun a c => a * 10 + (c.toNat - 48)) 0

/-- JavaScript `parseInt(s)` (radix 10): skip leading whitespace, optional
sign, then a maximal digit run; `none` models `NaN`.  (The hexadecimal
`0x` prefix form is not modelled; no input of this program uses it.) -/
def jsParseInt (s : String) : Option Int :=
  let cs := s.data.dropWhile Char.isWhitespace
  let (neg, cs1) :=
    match cs with
    | '-' :: r => (true, r)
    | '+' :: r => (false, r)
    | r => (false, r)
  let ds := cs1.takeWhile Char.isDigit
  if ds.isEmpty then none
  else
    let n : Int := (digitsToNat ds : Nat)
    some (if neg then -n else n)

/-- An exact rational value of a JavaScript floating-point computation:
numerator over a positive denominator, deliberately not normalized so
every operation is plain `Int`/`Nat` arithmetic the kernel evaluates.
Every constructor below keeps the denominator positive. -/
structure JNum where
  num : Int
  den : Nat
deriving DecidableEq

/-- Divide by a positive natural constant. -/
def JNum.divNat (a : JNum) (k : Nat) : JNum := ⟨a.num, a.den * k⟩

/-- Multiply by a natural constant. -/
def JNum.mulNat (a : JNum) (k : Nat) : JNum := ⟨a.num * k, a.den⟩

/-- Subtraction. -/
def JNum.sub (a b : JNum) : JNum :=
  ⟨a.num * b.den - b.num * a.den, a.den * b.den⟩

/-- `a > c` for an integer threshold `c`. -/
def JNum.gtInt (a : JNum) (c : Int) : Bool := a.num > c * a.den

/-- The rational value (for specification statements). -/
def JNum.val (a : JNum) : ℚ := (a.num : ℚ) / (a.den : ℚ)

/-- An integer as a `JNum`. -/
def JNum.ofInt (n : Int) : JNum := ⟨n, 1⟩

/-- JavaScript `parseFloat(s)`: skip leading whitespace, optional sign,
integer digits, optional fraction; `none` models `NaN`.  The value is
kept exactly (exponent notation and double rounding are not modelled;
the `du`/`df` outputs parsed by this program are short decimal
strings). -/
def jsParseFloat (s : String) : Option JNum :=
  let cs := s.data.dropWhile Char.isWhitespace
  let (neg, cs1) :=
    match cs with
    | '-' :: r => (true, r)
    | '+' :: r => (false, r)
    | r => (false, r)
  let ip := cs1.takeWhile Char.isDigit
  let rest1 := cs1.dropWhile Char.isDigit
  let fp :=
    match rest1 with
    | '.' :: r => r.takeWhile Char.isDigit
    | _ => []
  if ip.isEmpty ∧ fp.isEmpty then none
  else
    let mag : Int := (digitsToNat ip) * (10 ^ fp.length) + digitsToNat fp
    some ⟨if neg then -mag else mag, 10 ^ fp.length⟩

/-- Pad a decimal string with leading zeros up to width `w`. -/
def padZeros (s : String) (w : Nat) : String :=
  String.mk (List.replicate (w - s.length) '0') ++ s

/-- JavaScript `x.toFixed(d)` for a non-`NaN` number: take the sign
first, then round the magnitude to `d` decimals, half up on a tie
(ECMAScript picks the larger candidate after the sign is split off);
`(2m + den) / (2 den)` is that rounding in integer arithmetic. -/
def JNum.toFixed (d : Nat) (a : JNum) : String :=
  let sgn := if a.num < 0 then "-" else ""
  let m := a.num.natAbs * 10 ^ d
  let r := (2 * m + a.den) / (2 * a.den)
  let ip := r / 10 ^ d
  let fp := r % 10 ^ d
  sgn ++ toString ip ++ (if d = 0 then "" else "." ++ padZeros (toString fp) d)

/-- `toFixed` lifted to the `NaN`-aware number model. -/
def jsToFixed (d : Nat) (q : Option JNum) : String :=
  match q with
  | some v => JNum.toFixed d v
  | none => "NaN"

/-- Leftmost match of a JavaScript regular expression of the shape
`lit⟨group⟩`: scan left to right for the first occurrence of the literal
`lit` whose following text yields a nonempty group under `grab`. -/
def scanLitGroup (s lit : String) (grab : List Char → List Char) : Option String :=
  (List.range (s.data.length + 1)).findSome? (fun i =>
    let t := s.data.drop i
    if lit.data.isPrefixOf t then
      let g := grab (t.drop lit.data.length)
      if g.isEmpty then none else some (String.mk g)
    else none)

/-- Group grabber for `(\d+)`. -/
def grabDigits (t : List Char) : List Char :=
  t.takeWhile Char.isDigit

/-- Group grabber for `(.+)` (greedy, `.` does not match a newline). -/
def grabRestOfLine (t : List Char) : List Char :=
  t.takeWhile (fun c => c ≠ '\n')

/-- Group grabber for `(\d+%)`: a digit run immediately followed by `%`. -/
def grabDigitsPercent (t : List Char) : List Char :=
  let ds := t.takeWhile Char.isDigit
  if ds.isEmpty then []
  else
    match (t.drop ds.length).head? with
    | some '%' => ds ++ ['%']
    | _ => []

/-- Group grabber for `(\d+)` with a required `%` right after the group
(the group itself excludes the `%`), as in `/(\d+)%/`. -/
def grabDigitsBeforePercent (t : List Char) : List Char :=
  let ds := t.takeWhile Char.isDigit
  if ds.isEmpty then []
  else
    match (t.drop ds.length).head? with
    | some '%' => ds
    | _ => []

/-- The JavaScript regular expression `^(.+):\s+(\d+)` used on each
`vm_stat` line: a greedy nonempty prefix, a colon, at least one
whitespace character, then a digit run.  Greediness means the rightmost
colon that lets the rest of the pattern match wins. -/
def vmStatMatch (line : String) : Option (String × String) :=
  let cs := line.data
  ((List.range cs.length).filter (fun i => cs.get? i = some ':')).reverse.findSome?
    (fun i =>
      if i = 0 then none
      else
        let after := cs.drop (i + 1)
        let ws := after.takeWhile Char.isWhitespace
        let ds := (after.drop ws.length).takeWhile Char.isDigit
        if ws.isEmpty ∨ ds.isEmpty then none
        else some (String.mk (cs.take i), String.mk ds))

/-! ## The external-command monad -/

/-- Outcome of one external command: stdout on success (`execAsync`
resolving), an error message on failure (the promise rejecting). -/
abbrev ExecRes := Except String String

/-- The external world: the result of the `i`-th command issued during
one invocation, as a function of the command string. -/
abbrev Env := Nat → String → ExecRes

/-- Handler computations: thread the call counter, record the trace of
issued commands, and propagate a thrown exception through `Except`. -/
structure M (α : Type) where
  run : Env → Nat → Except String α × Nat × List String

instance : Monad M where
  pure a := ⟨fun _ n => (.ok a, n, [])⟩
  bind m f := ⟨fun env n =>
    match m.run env n with
    | (.ok a, n1, t1) =>
      match (f a).run env n1 with
      | (r, n2, t2) => (r, n2, t1 ++ t2)
    | (.error e, n1, t1) => (.error e, n1, t1)⟩

/-- `await execAsync(cmd)`: issue the command, advance the counter,
record the command in the trace; a rejection throws. -/
def execCmd (cmd : String) : M String :=
  ⟨fun env n => (env n cmd, n + 1, [cmd])⟩

/-- JavaScript `try { body } catch (e) { handler }`: commands issued
before the throw stay issued. -/
def tryCatchE (body : M α) (handler : String → M α) : M α :=
  ⟨fun env n =>
    match body.run env n with
    | (.ok a, n1, t1) => (.ok a, n1, t1)
    | (.error e, n1, t1) =>
      match (handler e).run env n1 with
      | (r, n2, t2) => (r, n2, t1 ++ t2)⟩

/-- The `Except` layer of a run outcome is a success. -/
def resOk : Except String α × Nat × List String → Bool
  | (.ok _, _, _) => true
  | (.error _, _, _) => false

/-- A computation that never lets an exception escape. -/
def MTotal (m : M α) : Prop :=
  ∀ env n, resOk (m.run env n) = true

/-! ## Arguments and the tool registry -/

/-- The argument record of a tool call.  JavaScript passes a single
`arguments` object to every handler; each handler destructures the fields
it cares about.  `none` models an absent (`undefined`) field. -/
structure Args where
  path : Option String := none
  depth : Option Int := none
  targets : Option (List String) := none
  dryRun : Option Bool := none
  includeVolumes : Option Bool := none
  includeDocker : Option Bool := none
  includeDockerVolumes : Option Bool := none
  cleanNodeModules : Option Bool := none
  cleanXcode : Option Bool := none
  cleanPyenvOldVersions : Option Bool := none
  topN : Option Int := none
  sortBy : Option String := none
  limit : Option Int := none
  filter : Option String := none
  pid : Option Int := none
  name : Option String := none
  force : Option Bool := none
  showDisabled : Option Bool := none
deriving DecidableEq

/-- The empty argument record `{}`. -/
def Args.empty : Args := {}

/-- A JSON-compatible default value in a parameter schema. -/
inductive JVal where
  | s (v : String)
  | n (v : Int)
  | b (v : Bool)
  | arr (v : List String)
deriving DecidableEq

/-- One parameter of a tool's `inputSchema`: its name, its declared
default (if any), and its declared enumeration (if any; for the
array-typed `targets` parameter this is the `items` enumeration).
Description fields carry no behavior and are omitted. -/
structure ParamSpec where
  pname : String
  defaultVal : Option JVal := none
  enumVals : Option (List String) := none
deriving DecidableEq

/-- One entry of the `tools` registry. -/
structure ToolDescriptor where
  tname : String
  params : List ParamSpec
deriving DecidableEq

/-- The static tool registry (`const tools = [...]`, `src/index.js`
lines 17-176). -/
def tools : List ToolDescriptor := [
  { tname := "mac_disk_usage",
    params := [
      { pname := "path", defaultVal := some (.s "~") },
      { pname := "depth", defaultVal := some (.n 1) }] },
  { tname := "mac_go_cache_status", params := [] },
  { tname := "mac_cleanup_caches",
    params := [
      { pname := "targets", defaultVal := some (.arr ["all"]),
        enumVals := some ["go", "brew", "npm", "pip", "chrome", "spotify", "all"] },
      { pname := "dryRun", defaultVal := some (.b false) }] },
  { tname := "mac_cleanup_docker",
    params := [
      { pname := "includeVolumes", defaultVal := some (.b false) },
      { pname := "dryRun", defaultVal := some (.b false) }] },
  { tname := "mac_memory_status", params := [] },
  { tname := "mac_cleanup_recommendations", params := [] },
  { tname := "mac_empty_trash",
    params := [{ pname := "dryRun", defaultVal := some (.b false) }] },
  { tname := "mac_full_cleanup_workflow",
    params := [
      { pname := "includeDocker", defaultVal := some (.b false) },
      { pname := "includeDockerVolumes", defaultVal := some (.b false) },
      { pname := "dryRun", defaultVal := some (.b false) }] },
  { tname := "mac_analyze_library", params := [] },
  { tname := "mac_developer_cleanup",
    params := [
      { pname := "cleanNodeModules", defaultVal := some (.b false) },
      { pname := "cleanXcode", defaultVal := some (.b false) },
      { pname := "cleanPyenvOldVersions", defaultVal := some (.b false) },
      { pname := "dryRun", defaultVal := some (.b true) }] },
  { tname := "mac_cpu_usage",
    params := [{ pname := "topN", defaultVal := some (.n 10) }] },
  { tname := "mac_thermal_status", params := [] },
  { tname := "mac_battery_health", params := [] },
  { tname := "mac_system_info", params := [] },
  { tname := "mac_process_list",
    params := [
      { pname := "sortBy", defaultVal := some (.s "cpu"),
        enumVals := some ["cpu", "memory", "name"] },
      { pname := "limit", defaultVal := some (.n 20) },
      { pname := "filter" }] },
  { tname := "mac_kill_process",
    params := [
      { pname := "pid" },
      { pname := "name" },
      { pname := "force", defaultVal := some (.b false) }] },
  { tname := "mac_startup_items",
    params := [{ pname := "showDisabled", defaultVal := some (.b false) }] },
  { tname := "mac_network_status", params := [] }]

/-- The registered tool names, in registry order. -/
def toolNames : List String := tools.map (fun t => t.tname)

/-- Store a schema default into the argument record under its parameter
name (used to build the "explicitly pass every declared default" call). -/
def setArg (a : Args) (p : String) (v : JVal) : Args :=
  match p, v with
  | "path", .s x => { a with path := some x }
  | "depth", .n x => { a with depth := some x }
  | "targets", .arr x => { a with targets := some x }
  | "dryRun", .b x => { a with dryRun := some x }
  | "includeVolumes", .b x => { a with includeVolumes := some x }
  | "includeDocker", .b x => { a with includeDocker := some x }
  | "includeDockerVolumes", .b x => { a with includeDockerVolumes := some x }
  | "cleanNodeModules", .b x => { a with cleanNodeModules := some x }
  | "cleanXcode", .b x => { a with cleanXcode := some x }
  | "cleanPyenvOldVersions", .b x => { a with cleanPyenvOldVersions := some x }
  | "topN", .n x => { a with topN := some x }
  | "sortBy", .s x => { a with sortBy := some x }
  | "limit", .n x => { a with limit := some x }
  | "filter", .s x => { a with filter := some x }
  | "pid", .n x => { a with pid := some x }
  | "name", .s x => { a with name := some x }
  | "force", .b x => { a with force := some x }
  | "showDisabled", .b x => { a with showDisabled := some x }
  | _, _ => a

/-- The argument record with every parameter that declares a default set
explicitly to that default. -/
def defaultArgs (t : ToolDescriptor) : Args :=
  t.params.foldl
    (fun a p =>
      match p.defaultVal with
      | some v => setArg a p.pname v
      | none => a)
    Args.empty

/-! ## Handlers: disk usage, go cache, cache cleanup, docker, trash, kill -/

/-- Result of `handleDiskUsage`. -/
inductive DiskUsageResult where
  | ok (diskUsage systemStatus : String)
  | err (error : String)
deriving DecidableEq

/-- `handleDiskUsage` (`src/index.js` lines 179-188).  `home` models
`process.env.HOME`. -/
def handleDiskUsageWith (home : String) (path : String) (depth : Int) : M DiskUsageResult :=
  tryCatchE (do
    let expandedPath := jsReplaceFirst path "~" home
    let stdout ← execCmd ("dust -d " ++ toString depth ++ " -n 20 -c \"" ++ expandedPath
      ++ "\" 2>/dev/null || du -h -d " ++ toString depth ++ " \"" ++ expandedPath
      ++ "\" 2>/dev/null | sort -hr | head -20")
    let dfOutput ← execCmd "df -h / | tail -1"
    pure (DiskUsageResult.ok stdout dfOutput.jsTrim))
    (fun e => pure (.err e))

/-- The destructuring header `{ path = "~", depth = 1 }` of
`handleDiskUsage`. -/
def handleDiskUsage (home : String) (args : Args) : M DiskUsageResult :=
  handleDiskUsageWith home (args.path.getD "~") (args.depth.getD 1)

/-- The fixed `commands` record returned by `go_cache_status`. -/
structure GoCacheCommands where
  cleanBuildCache : String
  cleanTestCache : String
  cleanModuleCache : String
deriving DecidableEq

/-- Result of `handleGoCacheStatus`. -/
inductive GoCacheStatusResult where
  | ok (cachePath cacheSize recommendation : String) (commands : GoCacheCommands)
  | err (error note : String)
deriving DecidableEq

/-- The `du` command that `go_cache_status` runs on the reported cache
path. -/
def goCacheDuCmd (p : String) : String :=
  "du -sh \"" ++ p ++ "\" 2>/dev/null || echo \"Unable to determine size\""

/-- The size in GB extracted from the `du` output: first
whitespace-separated field, first `"G"` removed, `parseFloat`, with
`|| 0` collapsing `NaN` to `0`. -/
def goCacheSizeGB (cacheSize : String) : JNum :=
  (jsParseFloat (jsReplaceFirst ((jsSplitWs cacheSize).headD "") "G" "")).getD (JNum.ofInt 0)

/-- The threshold recommendation of `go_cache_status`
(`src/index.js` lines 196-199). -/
def goCacheRecommendation (sizeGB : JNum) : String :=
  if sizeGB.gtInt 20 then "CRITICAL: Cache is very large. Run \x27go clean -cache\x27 to reclaim space."
  else if sizeGB.gtInt 10 then "WARNING: Cache is getting large. Consider cleaning with \x27go clean -cache\x27."
  else "Cache size is reasonable."

/-- `handleGoCacheStatus` (`src/index.js` lines 190-214). -/
def handleGoCacheStatus : M GoCacheStatusResult :=
  tryCatchE (do
    let cachePath ← execCmd "go env GOCACHE"
    let cacheSize ← execCmd (goCacheDuCmd cachePath.jsTrim)
    pure (GoCacheStatusResult.ok cachePath.jsTrim cacheSize.jsTrim
      (goCacheRecommendation (goCacheSizeGB cacheSize))
      ⟨"go clean -cache", "go clean -testcache",
       "go clean -modcache (careful: re-downloads all modules)"⟩))
    (fun e => pure (.err e "Go may not be installed"))

/-- A per-target entry in the `cleanup_caches` result: one constructor
per result-object shape the source builds. -/
inductive CacheEntry where
  | wouldClean (v : String)
  | status (v : String)
  | cachedItems (v : String)
  | info (v : String)
  | size (v : String)
  | error (v : String)
deriving DecidableEq

/-- The six cleanup targets of `cleanup_caches`, in source order. -/
inductive CacheTarget where
  | go | brew | npm | pip | chrome | spotify
deriving DecidableEq

/-- The `targets` keyword that selects a target. -/
def CacheTarget.key : CacheTarget → String
  | .go => "go"
  | .brew => "brew"
  | .npm => "npm"
  | .pip => "pip"
  | .chrome => "chrome"
  | .spotify => "spotify"

/-- The single external command each `cleanup_caches` block runs, per
target and mode (`src/index.js` lines 220-292). -/
def cacheCmd (home : String) (dryRun : Bool) : CacheTarget → String
  | .go => if dryRun then "du -sh $(go env GOCACHE) 2>/dev/null" else "go clean -cache"
  | .brew => if dryRun then "brew cleanup --dry-run 2>&1 | tail -5"
             else "brew cleanup --prune=all 2>&1 | tail -3"
  | .npm => if dryRun then "npm cache ls 2>/dev/null | wc -l"
            else "npm cache clean --force 2>/dev/null"
  | .pip => if dryRun then "pip cache info 2>/dev/null | grep \x27Size\x27"
            else "pip cache purge 2>/dev/null"
  | .chrome =>
    if dryRun then "du -sh \"" ++ home ++ "/Library/Caches/Google/Chrome\" 2>/dev/null"
    else "rm -rf \"" ++ home ++ "/Library/Caches/Google/Chrome\"/* 2>/dev/null"
  | .spotify =>
    if dryRun then "du -sh \"" ++ home ++ "/Library/Caches/com.spotify.client\" 2>/dev/null"
    else "rm -rf \"" ++ home ++ "/Library/Caches/com.spotify.client\"/* 2>/dev/null"

/-- The entry each `cleanup_caches` block stores when its command
succeeds with stdout `out`. -/
def cacheOkEntry (dryRun : Bool) (t : CacheTarget) (out : String) : CacheEntry :=
  match t, dryRun with
  | .go, true => .wouldClean out.jsTrim
  | .go, false => .status "cleaned"
  | .brew, true => .wouldClean out.jsTrim
  | .brew, false => .status out.jsTrim
  | .npm, true => .cachedItems out.jsTrim
  | .npm, false => .status "cleaned"
  | .pip, true => .info out.jsTrim
  | .pip, false => .status "cleaned"
  | .chrome, true => .size out.jsTrim
  | .chrome, false => .status "cleaned"
  | .spotify, true => .size out.jsTrim
  | .spotify, false => .status "cleaned"

/-- One guarded block of `handleCleanupCaches`: run only when selected,
catch the command failure into an `{error}` entry. -/
def cleanupOne (home : String) (dryRun : Bool) (targets : List String)
    (t : CacheTarget) : M (Option CacheEntry) :=
  if targets.contains "all" || targets.contains t.key then do
    let e ← tryCatchE (do
        let out ← execCmd (cacheCmd home dryRun t)
        pure (cacheOkEntry dryRun t out))
      (fun e => pure (CacheEntry.error e))
    pure (some e)
  else pure none

/-- The `results` object of `cleanup_caches`: an optional entry per
target key. -/
structure CleanupCachesResults where
  go : Option CacheEntry
  brew : Option CacheEntry
  npm : Option CacheEntry
  pip : Option CacheEntry
  chrome : Option CacheEntry
  spotify : Option CacheEntry
deriving DecidableEq

/-- Project a target's entry out of the results object. -/
def CleanupCachesResults.get (r : CleanupCachesResults) : CacheTarget → Option CacheEntry
  | .go => r.go
  | .brew => r.brew
  | .npm => r.npm
  | .pip => r.pip
  | .chrome => r.chrome
  | .spotify => r.spotify

/-- Result of `handleCleanupCaches`. -/
structure CleanupCachesResult where
  dryRun : Bool
  results : CleanupCachesResults
deriving DecidableEq

/-- `handleCleanupCaches` (`src/index.js` lines 216-295): six
independently guarded blocks in source order. -/
def handleCleanupCachesWith (home : String) (targets : List String) (dryRun : Bool) :
    M CleanupCachesResult := do
  let go ← cleanupOne home dryRun targets .go
  let brew ← cleanupOne home dryRun targets .brew
  let npm ← cleanupOne home dryRun targets .npm
  let pip ← cleanupOne home dryRun targets .pip
  let chrome ← cleanupOne home dryRun targets .chrome
  let spotify ← cleanupOne home dryRun targets .spotify
  pure { dryRun, results := ⟨go, brew, npm, pip, chrome, spotify⟩ }

/-- The destructuring header `{ targets = ["all"], dryRun = false }` of
`handleCleanupCaches`. -/
def handleCleanupCaches (home : String) (args : Args) : M CleanupCachesResult :=
  handleCleanupCachesWith home (args.targets.getD ["all"]) (args.dryRun.getD false)

/-- Result of `handleDockerCleanup`. -/
inductive DockerCleanupResult where
  | preview (currentUsage note : String)
  | done (before after pruneResult volumeResult : String)
  | err (error note : String)
deriving DecidableEq

/-- `handleDockerCleanup` (`src/index.js` lines 297-317). -/
def handleDockerCleanupWith (includeVolumes dryRun : Bool) : M DockerCleanupResult :=
  tryCatchE (do
    let dfBefore ← execCmd "docker system df 2>/dev/null"
    if dryRun then
      pure (DockerCleanupResult.preview dfBefore "Run with dryRun=false to clean")
    else do
      let pruneOutput ← execCmd "docker system prune -af 2>/dev/null"
      let volumeOutput ←
        if includeVolumes then execCmd "docker volume prune -f 2>/dev/null"
        else pure ""
      let dfAfter ← execCmd "docker system df 2>/dev/null"
      pure (.done dfBefore dfAfter pruneOutput
        (if volumeOutput = "" then "skipped" else volumeOutput)))
    (fun e => pure (.err e "Docker may not be running"))

/-- The destructuring header `{ includeVolumes = false, dryRun = false }`
of `handleDockerCleanup`. -/
def handleDockerCleanup (args : Args) : M DockerCleanupResult :=
  handleDockerCleanupWith (args.includeVolumes.getD false) (args.dryRun.getD false)

/-- Result of `handleEmptyTrash`: the dry-run preview
`{trashSize, note}`, the real `{status: "emptied", previousSize}`, or
the caught `{error}`. -/
inductive EmptyTrashResult where
  | preview (trashSize note : String)
  | emptied (previousSize : String)
  | err (error : String)
deriving DecidableEq

/-- `handleEmptyTrash` (`src/index.js` lines 396-405). -/
def handleEmptyTrashWith (dryRun : Bool) : M EmptyTrashResult :=
  tryCatchE (do
    let size ← execCmd "du -sh ~/.Trash 2>/dev/null"
    if dryRun then
      pure (EmptyTrashResult.preview size.jsTrim "Run with dryRun=false to empty")
    else do
      let _ ← execCmd "rm -rf ~/.Trash/* 2>/dev/null"
      pure (.emptied size.jsTrim))
    (fun e => pure (.err e))

/-- The destructuring header `{ dryRun = false }` of `handleEmptyTrash`. -/
def handleEmptyTrash (args : Args) : M EmptyTrashResult :=
  handleEmptyTrashWith (args.dryRun.getD false)

/-- JavaScript truthiness of an optional number argument: `undefined`
and `0` are falsy. -/
def jsTruthyNum : Option Int → Bool
  | none => false
  | some v => v != 0

/-- JavaScript truthiness of an optional string argument: `undefined`
and `""` are falsy. -/
def jsTruthyStr : Option String → Bool
  | none => false
  | some s => s ≠ ""

/-- Result of `handleKillProcess`: `{success: true, killed: {pid},
signal}`, `{success: true, killed: {pid, name}, signal}`, or
`{success: false, error}`. -/
inductive KillResult where
  | killedPid (pid : Int) (signal : String)
  | killedName (pid : Option Int) (name : String) (signal : String)
  | failure (error : String)
deriving DecidableEq

/-- `handleKillProcess` (`src/index.js` lines 783-805).  `if (pid)` and
`else if (name)` use JavaScript truthiness, so `pid: 0` and `name: ""`
fall through. -/
def handleKillProcessWith (pid : Option Int) (name : Option String) (force : Bool) :
    M KillResult := do
  let signal := if force then "-9" else "-15"
  tryCatchE (
    if jsTruthyNum pid then do
      let p := pid.getD 0
      let _ ← execCmd ("kill " ++ signal ++ " " ++ toString p)
      pure (KillResult.killedPid p (if force then "SIGKILL" else "SIGTERM"))
    else if jsTruthyStr name then do
      let nm := name.getD ""
      let out ← execCmd ("pgrep -f \"" ++ nm ++ "\" | head -1")
      let foundPid := out.jsTrim
      if foundPid = "" then
        pure (.failure ("No process found matching: " ++ nm))
      else do
        let _ ← execCmd ("kill " ++ signal ++ " " ++ foundPid)
        pure (.killedName (jsParseInt foundPid) nm (if force then "SIGKILL" else "SIGTERM"))
    else
      pure (.failure "Must provide either pid or name"))
    (fun e => pure (.failure e))

/-- The destructuring header `{ pid, name, force = false }` of
`handleKillProcess`. -/
def handleKillProcess (args : Args) : M KillResult :=
  handleKillProcessWith args.pid args.name (args.force.getD false)

/-! ## Handler: full cleanup workflow -/

/-- `workflow.before`/`workflow.after`: parsed `df` fields, a caught
`{error}`, or the dry-run `{note}`.  The three field values are the 2nd,
3rd and 4th whitespace field of the `df` line and may be `undefined`. -/
inductive DiskState where
  | parts (used available percentUsed : Option String)
  | err (error : String)
  | note (v : String)
deriving DecidableEq

/-- One step record pushed onto `workflow.steps`; absent object keys are
`none`. -/
structure WorkflowStep where
  name : String
  size : Option String := none
  status : String
  detail : Option String := none
  error : Option String := none
  note : Option String := none
  volumesCleaned : Option Bool := none
deriving DecidableEq

/-- Result of `handleFullCleanupWorkflow`. -/
structure WorkflowResult where
  steps : List WorkflowStep
  totalRecovered : String
  dryRun : Bool
  before : DiskState
  after : DiskState
deriving DecidableEq

/-- `s.trim().split(/\s+/)[0]`, the size field the workflow steps
extract from `du` output. -/
def firstField (s : String) : Option String :=
  (jsSplitWs s.jsTrim).head?

/-- The `df -h / | tail -1` command used for both disk-state captures. -/
def dfCmd : String := "df -h / | tail -1"

/-- Parse one `df` line into the before/after record. -/
def parseDfLine (out : String) : DiskState :=
  let parts := jsSplitWs out.jsTrim
  .parts (parts.get? 2) (parts.get? 3) (parts.get? 4)

/-- Step 1: capture the before state (`src/index.js` lines 411-415). -/
def wfBeforeState : M DiskState :=
  tryCatchE (do
    let out ← execCmd dfCmd
    pure (parseDfLine out))
    (fun e => pure (.err e))

/-- Step 2: empty trash (lines 417-422). -/
def wfTrashStep (dryRun : Bool) : M WorkflowStep :=
  tryCatchE (do
    let trashSize ← execCmd "du -sh ~/.Trash 2>/dev/null"
    if !dryRun then do
      let _ ← execCmd "rm -rf ~/.Trash/* 2>/dev/null"
      pure ()
    else pure ()
    pure { name := "Empty Trash", size := firstField trashSize,
           status := if dryRun then "would clean" else "cleaned" })
    (fun e => pure { name := "Empty Trash", status := "skipped", error := some e })

/-- Step 3: Go build cache (lines 424-430). -/
def wfGoStep (dryRun : Bool) : M WorkflowStep :=
  tryCatchE (do
    let cachePath ← execCmd "go env GOCACHE"
    let cacheSize ← execCmd ("du -sh \"" ++ cachePath.jsTrim ++ "\" 2>/dev/null")
    if !dryRun then do
      let _ ← execCmd "go clean -cache"
      pure ()
    else pure ()
    pure { name := "Go Build Cache", size := firstField cacheSize,
           status := if dryRun then "would clean" else "cleaned" })
    (fun _ => pure { name := "Go Build Cache", status := "skipped",
                     note := some "Go not installed or cache empty" })

/-- Step 4: Homebrew cache (lines 432-441); the real run alone records a
`detail` field taken from the cleanup command's output. -/
def wfBrewStep (dryRun : Bool) : M WorkflowStep :=
  tryCatchE (do
    let brewSize ← execCmd "du -sh ~/Library/Caches/Homebrew 2>/dev/null"
    if !dryRun then do
      let out ← execCmd "brew cleanup --prune=all 2>&1 | grep -E \x27freed|Removing\x27 | tail -1"
      pure { name := "Homebrew Cache", size := firstField brewSize,
             status := "cleaned", detail := some out.jsTrim }
    else
      pure { name := "Homebrew Cache", size := firstField brewSize,
             status := "would clean" })
    (fun _ => pure { name := "Homebrew Cache", status := "skipped" })

/-- Step 5: Chrome cache (lines 443-449). -/
def wfChromeStep (home : String) (dryRun : Bool) : M WorkflowStep :=
  tryCatchE (do
    let chromeSize ← execCmd ("du -sh \"" ++ home ++ "/Library/Caches/Google/Chrome\" 2>/dev/null")
    if !dryRun then do
      let _ ← execCmd ("rm -rf \"" ++ home ++ "/Library/Caches/Google/Chrome\"/* 2>/dev/null")
      pure ()
    else pure ()
    pure { name := "Chrome Cache", size := firstField chromeSize,
           status := if dryRun then "would clean" else "cleaned" })
    (fun _ => pure { name := "Chrome Cache", status := "skipped" })

/-- Step 6: Spotify cache (lines 451-457). -/
def wfSpotifyStep (home : String) (dryRun : Bool) : M WorkflowStep :=
  tryCatchE (do
    let spotifySize ← execCmd ("du -sh \"" ++ home ++ "/Library/Caches/com.spotify.client\" 2>/dev/null")
    if !dryRun then do
      let _ ← execCmd ("rm -rf \"" ++ home ++ "/Library/Caches/com.spotify.client\"/* 2>/dev/null")
      pure ()
    else pure ()
    pure { name := "Spotify Cache", size := firstField spotifySize,
           status := if dryRun then "would clean" else "cleaned" })
    (fun _ => pure { name := "Spotify Cache", status := "skipped" })

/-- Step 7: npm cache (lines 459-463). -/
def wfNpmStep (dryRun : Bool) : M WorkflowStep :=
  tryCatchE (do
    if !dryRun then do
      let _ ← execCmd "npm cache clean --force 2>/dev/null"
      pure ()
    else pure ()
    pure { name := "npm Cache", status := if dryRun then "would clean" else "cleaned" })
    (fun _ => pure { name := "npm Cache", status := "skipped" })

/-- Step 8: pip cache (lines 465-469). -/
def wfPipStep (dryRun : Bool) : M WorkflowStep :=
  tryCatchE (do
    if !dryRun then do
      let _ ← execCmd "pip cache purge 2>/dev/null"
      pure ()
    else pure ()
    pure { name := "pip Cache", status := if dryRun then "would clean" else "cleaned" })
    (fun _ => pure { name := "pip Cache", status := "skipped" })

/-- Step 9: the optional Docker step (lines 471-481). -/
def wfDockerStep (dryRun includeDockerVolumes : Bool) : M WorkflowStep :=
  tryCatchE (do
    let dockerDf ← execCmd "docker system df --format \x27\x7b\x7b.TotalCount\x7d\x7d \x7b\x7b.Size\x7d\x7d\x27 2>/dev/null"
    if !dryRun then do
      let _ ← execCmd "docker system prune -af 2>/dev/null"
      if includeDockerVolumes then do
        let _ ← execCmd "docker volume prune -f 2>/dev/null"
        pure ()
      else pure ()
    else pure ()
    pure { name := "Docker", detail := some dockerDf.jsTrim,
           status := if dryRun then "would clean" else "cleaned",
           volumesCleaned := some includeDockerVolumes })
    (fun _ => pure { name := "Docker", status := "skipped",
                     note := some "Docker not running" })

/-- The `available` field read off a disk-state record; reading it off
an `{error}` record gives `undefined`. -/
def diskAvail : DiskState → Option String
  | .parts _ a _ => a
  | _ => none

/-- `parseFloat(state.available?.replace("G", "") || 0)`: an `undefined`
or empty string collapses to `0` before parsing; otherwise `parseFloat`
may still give `NaN` (`none`). -/
def availGB (avail : Option String) : Option JNum :=
  match avail with
  | none => some (JNum.ofInt 0)
  | some a =>
    let r := jsReplaceFirst a "G" ""
    if r = "" then some (JNum.ofInt 0) else jsParseFloat r

/-- `totalRecovered` as computed in the after-capture block:
`(afterAvailGB - beforeAvailGB).toFixed(1) + "G"`. -/
def recoveredStr (before after : DiskState) : String :=
  jsToFixed 1
    (match availGB (diskAvail before), availGB (diskAvail after) with
     | some b, some a => some (a.sub b)
     | _, _ => none) ++ "G"

/-- Final block (lines 483-497): capture the after state and compute the
recovered figure; on a dry run only a note is recorded; on a capture
failure `totalRecovered` keeps its initial placeholder. -/
def wfAfterState (dryRun : Bool) (before : DiskState) : M (DiskState × String) :=
  if !dryRun then
    tryCatchE (do
      let out ← execCmd dfCmd
      let after := parseDfLine out
      pure (after, recoveredStr before after))
      (fun e => pure (.err e, "calculating..."))
  else
    pure (.note "Dry run - no changes made", "calculating...")

/-- `handleFullCleanupWorkflow` (`src/index.js` lines 407-500). -/
def handleFullCleanupWorkflowWith (home : String)
    (includeDocker includeDockerVolumes dryRun : Bool) : M WorkflowResult := do
  let before ← wfBeforeState
  let s2 ← wfTrashStep dryRun
  let s3 ← wfGoStep dryRun
  let s4 ← wfBrewStep dryRun
  let s5 ← wfChromeStep home dryRun
  let s6 ← wfSpotifyStep home dryRun
  let s7 ← wfNpmStep dryRun
  let s8 ← wfPipStep dryRun
  let dockerSteps ←
    if includeDocker then do
      let s ← wfDockerStep dryRun includeDockerVolumes
      pure [s]
    else pure []
  let fin ← wfAfterState dryRun before
  pure { steps := [s2, s3, s4, s5, s6, s7, s8] ++ dockerSteps,
         totalRecovered := fin.2, dryRun := dryRun, before := before, after := fin.1 }

/-- The destructuring header `{ includeDocker = false,
includeDockerVolumes = false, dryRun = false }` of
`handleFullCleanupWorkflow`. -/
def handleFullCleanupWorkflow (home : String) (args : Args) : M WorkflowResult :=
  handleFullCleanupWorkflowWith home (args.includeDocker.getD false)
    (args.includeDockerVolumes.getD false) (args.dryRun.getD false)

/-! ## Handlers: monitoring tools -/

/-- The `vmStats` record of `memory_status`. -/
structure VmStats where
  freeGB : String
  activeGB : String
  inactiveGB : String
  wiredGB : String
  compressedGB : String
deriving DecidableEq

/-- The `stats` dictionary built from `vm_stat` output: one entry per
line matching `^(.+):\s+(\d+)`, the page count scaled by the 16KiB page
size into GB (`none` models `NaN`). -/
def vmStatPairs (vmStat : String) : List (String × Option JNum) :=
  (jsSplitOnStr vmStat "\n").filterMap (fun line =>
    (vmStatMatch line).map (fun m =>
      (m.1.jsTrim, (jsParseInt m.2).map (fun n =>
        ((JNum.ofInt n).mulNat 16384).divNat (1024 * 1024 * 1024)))))

/-- Dictionary lookup with JavaScript overwrite semantics: the last
assignment to a key wins. -/
def vmStatLookup (pairs : List (String × Option JNum)) (key : String) : Option (Option JNum) :=
  (pairs.reverse.find? (fun p => p.1 = key)).map (fun p => p.2)

/-- `stats[key]?.toFixed(2) || "N/A"`: a missing key gives `"N/A"`; a
present value formats with two decimals (the string is never empty, so
the `||` passes it through). -/
def vmStatField (pairs : List (String × Option JNum)) (key : String) : String :=
  match vmStatLookup pairs key with
  | some v => jsToFixed 2 v
  | none => "N/A"

/-- Result of `handleMemoryStatus`. -/
inductive MemoryStatusResult where
  | ok (memoryPressure topProcesses : String) (vmStats : VmStats)
  | err (error : String)
deriving DecidableEq

/-- `handleMemoryStatus` (`src/index.js` lines 319-348). -/
def handleMemoryStatus : M MemoryStatusResult :=
  tryCatchE (do
    let vmStat ← execCmd "vm_stat"
    let memPressure ← execCmd "memory_pressure 2>/dev/null || echo \x27memory_pressure command not available\x27"
    let topProcesses ← execCmd "ps aux --sort=-%mem | head -10"
    let stats := vmStatPairs vmStat
    pure (MemoryStatusResult.ok memPressure.jsTrim topProcesses
      { freeGB := vmStatField stats "Pages free",
        activeGB := vmStatField stats "Pages active",
        inactiveGB := vmStatField stats "Pages inactive",
        wiredGB := vmStatField stats "Pages wired down",
        compressedGB := vmStatField stats "Pages occupied by compressor" }))
    (fun e => pure (.err e))

/-- One entry of the `cleanup_recommendations` list; one constructor per
object shape the source pushes. -/
inductive RecEntry where
  | prioMsg (priority message : String)
  | sized (priority target sizeGB command : String)
  | dockerSized (priority target size command : String)
  | onlyMsg (message : String)
deriving DecidableEq

/-- Disk block of `cleanup_recommendations` (lines 353-360):
`parseInt(parts[4]?.replace("%", "") || "0")` then fixed thresholds. -/
def recDiskEntries (out : String) : List RecEntry :=
  let parts := jsSplitWs out.jsTrim
  let raw := match parts.get? 4 with
    | none => "0"
    | some p => let r := jsReplaceFirst p "%" ""; if r = "" then "0" else r
  match jsParseInt raw with
  | some up =>
    if up > 90 then [.prioMsg "HIGH" ("Disk " ++ toString up ++ "% full - immediate cleanup needed")]
    else if up > 80 then [.prioMsg "MEDIUM" ("Disk " ++ toString up ++ "% full - consider cleanup")]
    else []
  | none => []

/-- A `du -s` size block of `cleanup_recommendations`: the first field in
KB, divided to GB, pushed when above the threshold. -/
def recSizeEntries (out : String) (threshold : Int) (priority target command : String) :
    List RecEntry :=
  match (jsParseInt ((jsSplitWs out).headD "")).map (fun k => ((JNum.ofInt k).divNat 1024).divNat 1024) with
  | some g => if g.gtInt threshold then [.sized priority target (g.toFixed 1) command] else []
  | none => []

/-- `handleCleanupRecommendations` (`src/index.js` lines 350-394): five
independently guarded checks with empty catches. -/
def handleCleanupRecommendations : M (List RecEntry) := do
  let disk ← tryCatchE (do
      let out ← execCmd dfCmd
      pure (recDiskEntries out))
    (fun _ => pure [])
  let goRec ← tryCatchE (do
      let cachePath ← execCmd "go env GOCACHE"
      let out ← execCmd ("du -s \"" ++ cachePath.jsTrim ++ "\" 2>/dev/null")
      pure (recSizeEntries out 10 "HIGH" "go-cache" "go clean -cache"))
    (fun _ => pure [])
  let trash ← tryCatchE (do
      let out ← execCmd "du -s ~/.Trash 2>/dev/null"
      pure (recSizeEntries out 1 "LOW" "trash" "rm -rf ~/.Trash/*"))
    (fun _ => pure [])
  let docker ← tryCatchE (do
      let out ← execCmd "docker system df --format \x27\x7b\x7b.Size\x7d\x7d\x27 2>/dev/null | head -1"
      pure (if jsIncludes out "GB" then
        [RecEntry.dockerSized "MEDIUM" "docker" out.jsTrim "docker system prune -a"] else []))
    (fun _ => pure [])
  let brew ← tryCatchE (do
      let out ← execCmd "du -s ~/Library/Caches/Homebrew 2>/dev/null"
      pure (recSizeEntries out 1 "LOW" "homebrew-cache" "brew cleanup --prune=all"))
    (fun _ => pure [])
  let recommendations := disk ++ goRec ++ trash ++ docker ++ brew
  pure (if recommendations.isEmpty then [.onlyMsg "No immediate cleanup needed"] else recommendations)

/-- Result of `handleCpuUsage`.  `performanceCores`/`efficiencyCores`:
outer `none` is the JavaScript `null` branch, inner `none` a `NaN` from
`parseInt`. -/
inductive CpuUsageResult where
  | ok (loadAverages cpuUsage : String) (totalCores : Option Int)
      (performanceCores efficiencyCores : Option (Option Int)) (topProcesses : String)
  | err (error : String)
deriving DecidableEq

/-- `handleCpuUsage` (`src/index.js` lines 619-646). -/
def handleCpuUsageWith (topN : Int) : M CpuUsageResult :=
  tryCatchE (do
    let loadAvg ← execCmd "sysctl -n vm.loadavg"
    let cpuInfo ← execCmd "top -l 1 -n 0 | grep \x27CPU usage\x27"
    let topProcesses ← execCmd ("ps aux -r | head -" ++ toString (topN + 1))
    let coreCount ← execCmd "sysctl -n hw.ncpu"
    let perfCores ← execCmd "sysctl -n hw.perflevel0.physicalcpu 2>/dev/null || echo \x27N/A\x27"
    let effCores ← execCmd "sysctl -n hw.perflevel1.physicalcpu 2>/dev/null || echo \x27N/A\x27"
    pure (CpuUsageResult.ok loadAvg.jsTrim cpuInfo.jsTrim
      (jsParseInt coreCount.jsTrim)
      (if perfCores.jsTrim ≠ "N/A" then some (jsParseInt perfCores.jsTrim) else none)
      (if effCores.jsTrim ≠ "N/A" then some (jsParseInt effCores.jsTrim) else none)
      topProcesses.jsTrim))
    (fun e => pure (.err e))

/-- The destructuring header `{ topN = 10 }` of `handleCpuUsage`. -/
def handleCpuUsage (args : Args) : M CpuUsageResult :=
  handleCpuUsageWith (args.topN.getD 10)

/-- Result of `handleThermalStatus`. -/
inductive ThermalStatusResult where
  | ok (thermalState temperature : String) (isThrottling : Bool) (recommendation : String)
  | err (error : String)
deriving DecidableEq

/-- `handleThermalStatus` (`src/index.js` lines 648-672). -/
def handleThermalStatus : M ThermalStatusResult :=
  tryCatchE (do
    let thermalState ← execCmd "pmset -g therm 2>/dev/null || echo \x27Thermal info not available\x27"
    let temperature ← tryCatchE (do
        let out ← execCmd "osx-cpu-temp 2>/dev/null"
        pure out.jsTrim)
      (fun _ => pure "Temperature monitoring requires additional tools (e.g., osx-cpu-temp)")
    let isThrottling := jsIncludes thermalState "CPU_Speed_Limit" && !jsIncludes thermalState "100"
    pure (ThermalStatusResult.ok thermalState.jsTrim temperature isThrottling
      (if isThrottling then
        "System is thermal throttling. Consider improving ventilation or reducing workload."
       else "Thermal status normal.")))
    (fun e => pure (.err e))

/-- A JavaScript value that is a number or falls back to a string
(`parseInt(x) || x`). -/
inductive NumOrStr where
  | num (n : Int)
  | str (s : String)
deriving DecidableEq

/-- Result of `handleBatteryHealth`. -/
inductive BatteryHealthResult where
  | ok (chargeLevel : String) (cycleCount : NumOrStr)
      (condition maxCapacity : String) (isCharging isFullyCharged : Bool)
      (powerSource healthNote : String)
  | err (error : String)
deriving DecidableEq

/-- `healthNote` thresholds (lines 699-700); `parseInt("N/A")` is `NaN`
and both `NaN < 80` and `NaN < 90` are false, landing on "good". -/
def batteryHealthNote (maxCapacity : String) : String :=
  match jsParseInt maxCapacity with
  | some n =>
    if n < 80 then "Battery capacity significantly degraded. Consider replacement."
    else if n < 90 then "Battery showing some wear."
    else "Battery health good."
  | none => "Battery health good."

/-- `handleBatteryHealth` (`src/index.js` lines 674-705). -/
def handleBatteryHealth : M BatteryHealthResult :=
  tryCatchE (do
    let batteryInfo ← execCmd "system_profiler SPPowerDataType 2>/dev/null"
    let cycleCountStr := (scanLitGroup batteryInfo "Cycle Count: " grabDigits).getD "N/A"
    let condition :=
      match (scanLitGroup batteryInfo "Condition: " grabRestOfLine).map String.jsTrim with
      | some t => if t = "" then "N/A" else t
      | none => "N/A"
    let maxCapacity := (scanLitGroup batteryInfo "Maximum Capacity: " grabDigitsPercent).getD "N/A"
    let pmsetOutput ← execCmd "pmset -g batt"
    let chargeLevel := (scanLitGroup pmsetOutput "" grabDigitsBeforePercent).getD "N/A"
    pure (BatteryHealthResult.ok (chargeLevel ++ "%")
      (match jsParseInt cycleCountStr with
       | some n => if n = 0 then .str cycleCountStr else .num n
       | none => .str cycleCountStr)
      condition maxCapacity
      (jsIncludes batteryInfo "Charging: Yes")
      (jsIncludes batteryInfo "Fully Charged: Yes")
      (if jsIncludes batteryInfo "Connected: Yes" then "AC Power" else "Battery")
      (batteryHealthNote maxCapacity)))
    (fun e => pure (.err e))

/-- The `disk` sub-record of `system_info`. -/
structure SysDisk where
  total : Option String
  used : Option String
  available : Option String
  percentUsed : Option String
deriving DecidableEq

/-- Result of `handleSystemInfo`. -/
inductive SystemInfoResult where
  | ok (macOS model chip memoryGB uptime : String) (disk : SysDisk)
      (currentUser hostname : String)
  | err (error : String)
deriving DecidableEq

/-- `handleSystemInfo` (`src/index.js` lines 707-748). -/
def handleSystemInfo : M SystemInfoResult :=
  tryCatchE (do
    let osVersion ← execCmd "sw_vers"
    let model ← execCmd "sysctl -n hw.model"
    let chip ← execCmd "sysctl -n machdep.cpu.brand_string 2>/dev/null || echo \x27Apple Silicon\x27"
    let memory ← execCmd "sysctl -n hw.memsize"
    let uptime ← execCmd "uptime"
    let disk ← execCmd dfCmd
    let user ← execCmd "whoami"
    let hostname ← execCmd "hostname"
    let diskParts := jsSplitWs disk.jsTrim
    pure (SystemInfoResult.ok
      (jsReplaceAll osVersion.jsTrim "\n" ", ")
      model.jsTrim chip.jsTrim
      (jsToFixed 0 ((jsParseInt memory).map (fun n => (((JNum.ofInt n).divNat 1024).divNat 1024).divNat 1024)) ++ " GB")
      uptime.jsTrim
      ⟨diskParts.get? 1, diskParts.get? 2, diskParts.get? 3, diskParts.get? 4⟩
      user.jsTrim hostname.jsTrim))
    (fun e => pure (.err e))

/-! ## Handlers: process list, startup items, network, library, developer -/

/-- One parsed row of the `process_list` table. -/
structure ProcRow where
  user : Option String
  pid : Option Int
  cpu : Option JNum
  mem : Option JNum
  command : String
deriving DecidableEq

/-- Result of `handleProcessList`. -/
inductive ProcessListResult where
  | ok (sortedBy : String) (header : Option String) (processes : List ProcRow)
  | err (error : String)
deriving DecidableEq

/-- Parse one `ps aux` line (lines 766-775): whitespace fields, numeric
fields through `parseInt`/`parseFloat`, the command as the 11th field
onward re-joined with single spaces. -/
def parseProcLine (line : String) : ProcRow :=
  let parts := jsSplitWs line
  { user := parts.get? 0,
    pid := jsParseInt ((parts.get? 1).getD ""),
    cpu := jsParseFloat ((parts.get? 2).getD ""),
    mem := jsParseFloat ((parts.get? 3).getD ""),
    command := joinSep " " (parts.drop 10) }

/-- `handleProcessList` (`src/index.js` lines 750-781).  `parseInt` and
`parseFloat` of an `undefined` field are `NaN`; feeding the empty string
to the Lean models produces the same `none`. -/
def handleProcessListWith (sortBy : String) (limit : Int) (filter : String) :
    M ProcessListResult :=
  tryCatchE (do
    let sortFlag := if sortBy = "memory" then "-m" else if sortBy = "name" then "" else "-r"
    let cmd :=
      if filter ≠ "" then
        "ps aux " ++ sortFlag ++ " | grep -i \"" ++ filter ++ "\" | head -" ++ toString limit
      else
        "ps aux " ++ sortFlag ++ " | head -" ++ toString (limit + 1)
    let stdout ← execCmd cmd
    let lines := jsSplitOnStr stdout.jsTrim "\n"
    pure (ProcessListResult.ok sortBy lines.head? ((lines.drop 1).map parseProcLine)))
    (fun e => pure (.err e))

/-- The destructuring header `{ sortBy = "cpu", limit = 20, filter = "" }`
of `handleProcessList`. -/
def handleProcessList (args : Args) : M ProcessListResult :=
  handleProcessListWith (args.sortBy.getD "cpu") (args.limit.getD 20) (args.filter.getD "")

/-- One launch-agent entry: the last whitespace field of an `ls -la`
line, tagged `"user"`. -/
structure AgentEntry where
  path : Option String
  typ : String
deriving DecidableEq

/-- Result of `handleStartupItems`. -/
inductive StartupItemsResult where
  | ok (loginItems : List String) (launchAgents : List AgentEntry)
      (launchDaemons : List String) (loadedAgents : String)
      (systemAgents : Option (List String))
  | err (error : String)
deriving DecidableEq

/-- `handleStartupItems` (`src/index.js` lines 807-834).  The
`showDisabled` argument is declared but never read.  `loginItems` and
`launchDaemons` keep their initial empty lists. -/
def handleStartupItems (_args : Args) : M StartupItemsResult :=
  tryCatchE (do
    let userAgents ← execCmd "ls -la ~/Library/LaunchAgents/*.plist 2>/dev/null || echo \x27\x27"
    let launchAgents :=
      if userAgents.jsTrim ≠ "" then
        (jsSplitOnStr userAgents.jsTrim "\n").map (fun line =>
          ({ path := (jsSplitWs line).getLast?, typ := "user" } : AgentEntry))
      else []
    let loadedAgents ← execCmd "launchctl list 2>/dev/null | head -30"
    let systemAgentsOut ← execCmd "ls /Library/LaunchAgents/*.plist 2>/dev/null | head -10 || echo \x27\x27"
    let systemAgents :=
      if systemAgentsOut.jsTrim ≠ "" then some (jsSplitOnStr systemAgentsOut.jsTrim "\n") else none
    pure (StartupItemsResult.ok [] launchAgents [] loadedAgents.jsTrim systemAgents))
    (fun e => pure (.err e))

/-- Result of `handleNetworkStatus`. -/
inductive NetworkStatusResult where
  | ok (interfaces wifi externalIp dnsServers : String) (activeConnections : Option Int)
  | err (error : String)
deriving DecidableEq

/-- `handleNetworkStatus` (`src/index.js` lines 836-868). -/
def handleNetworkStatus : M NetworkStatusResult :=
  tryCatchE (do
    let interfaces ← execCmd "ifconfig | grep -E \x27^[a-z]|inet \x27 | head -20"
    let wifi ← tryCatchE (do
        let out ← execCmd "/System/Library/PrivateFrameworks/Apple80211.framework/Versions/Current/Resources/airport -I 2>/dev/null | grep -E \x27SSID|BSSID|channel|RSSI\x27"
        pure out.jsTrim)
      (fun _ => pure "Not connected to WiFi")
    let externalIp ← tryCatchE (do
        let out ← execCmd "curl -s --max-time 2 ifconfig.me"
        pure out.jsTrim)
      (fun _ => pure "Unable to determine")
    let dns ← execCmd "scutil --dns | grep \x27nameserver\x27 | head -5"
    let connCount ← execCmd "netstat -an | grep ESTABLISHED | wc -l"
    pure (NetworkStatusResult.ok interfaces.jsTrim wifi externalIp dns.jsTrim
      (jsParseInt connCount.jsTrim)))
    (fun e => pure (.err e))

/-- The fixed `~/Library` subdirectories `analyze_library` sizes
(lines 506-514). -/
def libraryDirs : List (String × String) := [
  ("Caches", "~/Library/Caches"),
  ("Application Support", "~/Library/Application Support"),
  ("Containers", "~/Library/Containers"),
  ("Developer", "~/Library/Developer"),
  ("Fonts", "~/Library/Fonts"),
  ("Mail", "~/Library/Mail"),
  ("Messages", "~/Library/Messages")]

/-- The `for (const dir of dirs)` loop (lines 516-524): per-directory
`du`, the catch recording size `"N/A"`. -/
def analyzeDirSizes (home : String) : List (String × String) → M (List (String × Option String))
  | [] => pure []
  | d :: rest => do
    let size ← tryCatchE (do
        let out ← execCmd ("du -sh \"" ++ jsReplaceFirst d.2 "~" home ++ "\" 2>/dev/null")
        pure (firstField out))
      (fun _ => pure (some "N/A"))
    let restR ← analyzeDirSizes home rest
    pure ((d.1, size) :: restR)

/-- One `topCaches` row (lines 529-532): destructured first two
whitespace fields, the path reduced to its final component. -/
structure TopCache where
  size : Option String
  path : Option String
deriving DecidableEq

/-- The known-large-cache shortlist (lines 536-541). -/
def knownLargeCachesList : List (String × String × String) := [
  ("Go Build", "~/Library/Caches/go-build", "go clean -cache"),
  ("Homebrew", "~/Library/Caches/Homebrew", "brew cleanup --prune=all"),
  ("Google Chrome", "~/Library/Caches/Google/Chrome", "rm -rf ~/Library/Caches/Google/Chrome/*"),
  ("Xcode DerivedData", "~/Library/Developer/Xcode/DerivedData", "rm -rf ~/Library/Developer/Xcode/DerivedData/*")]

/-- One entry of `analysis.knownLargeCaches`. -/
structure KnownCache where
  name : String
  path : String
  cleanCmd : String
  size : Option String
deriving DecidableEq

/-- The known-large-cache loop (lines 543-551): push on success, skip on
a caught failure. -/
def knownCachesScan (home : String) : List (String × String × String) → M (List KnownCache)
  | [] => pure []
  | c :: rest => do
    let entry ← tryCatchE (do
        let out ← execCmd ("du -sh \"" ++ jsReplaceFirst c.2.1 "~" home ++ "\" 2>/dev/null")
        pure (some ({ name := c.1, path := c.2.1, cleanCmd := c.2.2,
                      size := firstField out } : KnownCache)))
      (fun _ => pure none)
    let restR ← knownCachesScan home rest
    pure (match entry with | some e => e :: restR | none => restR)

/-- Result of `handleAnalyzeLibrary`; `topCaches` stays absent when its
guarded block fails. -/
structure AnalyzeLibraryResult where
  categories : List (String × Option String)
  topCaches : Option (List TopCache)
  knownLargeCaches : List KnownCache
deriving DecidableEq

/-- `handleAnalyzeLibrary` (`src/index.js` lines 502-554). -/
def handleAnalyzeLibrary (home : String) : M AnalyzeLibraryResult := do
  let categories ← analyzeDirSizes home libraryDirs
  let topCaches ← tryCatchE (do
      let out ← execCmd "du -sh ~/Library/Caches/*/ 2>/dev/null | sort -hr | head -10"
      pure (some ((jsSplitOnStr out.jsTrim "\n").map (fun line =>
        let parts := jsSplitWs line
        ({ size := parts.get? 0,
           path := (parts.get? 1).bind (fun p => (jsSplitOnStr p "/").getLast?) } : TopCache)))))
    (fun _ => pure none)
  let known ← knownCachesScan home knownLargeCachesList
  pure { categories := categories, topCaches := topCaches, knownLargeCaches := known }

/-- One analyzed `node_modules` directory (lines 565-571). -/
structure NMInfo where
  path : String
  size : Option String
  lastModified : String
deriving DecidableEq

/-- The `results.nodeModules` value. -/
inductive NodeModulesRes where
  | ok (found : Nat) (analyzed : List NMInfo) (dryRun : Bool)
  | err (error : String)
deriving DecidableEq

/-- The per-directory loop of the node_modules block (lines 566-572):
`du` and `stat` per directory, failures skipped. -/
def nmScan : List String → M (List NMInfo)
  | [] => pure []
  | dir :: rest => do
    let entry ← tryCatchE (do
        let size ← execCmd ("du -sh \"" ++ dir ++ "\" 2>/dev/null")
        let mtime ← execCmd ("stat -f \"%Sm\" -t \"%Y-%m-%d\" \"" ++ dir ++ "\" 2>/dev/null")
        pure (some ({ path := dir, size := firstField size,
                      lastModified := mtime.jsTrim } : NMInfo)))
      (fun _ => pure none)
    let restR ← nmScan rest
    pure (match entry with | some e => e :: restR | none => restR)

/-- The `results.xcodeDerivedData` value. -/
inductive XcodeDD where
  | ok (size : Option String) (status : String)
  | skipped (status note : String)
deriving DecidableEq

/-- The `results.xcodeArchives` value. -/
structure XcodeArch where
  size : Option String
  note : String
deriving DecidableEq

/-- One pyenv version row (lines 604-608). -/
structure PyenvVersion where
  version : String
  size : Option String
  isCurrent : Bool
deriving DecidableEq

/-- The `results.pyenvVersions` value. -/
inductive PyenvRes where
  | ok (current : String) (versions : List PyenvVersion) (note : String)
  | skipped (status note : String)
deriving DecidableEq

/-- The per-version loop of the pyenv block (lines 600-610). -/
def pyenvScan (current : String) : List String → M (List PyenvVersion)
  | [] => pure []
  | ver :: rest => do
    let entry ← tryCatchE (do
        let size ← execCmd ("du -sh ~/.pyenv/versions/" ++ ver ++ " 2>/dev/null")
        pure (some ({ version := ver, size := firstField size,
                      isCurrent := ver.jsTrim = current } : PyenvVersion)))
      (fun _ => pure none)
    let restR ← pyenvScan current rest
    pure (match entry with | some e => e :: restR | none => restR)

/-- Result of `handleDeveloperCleanup`: each section's record is present
only when its flag was set. -/
structure DeveloperCleanupResult where
  nodeModules : Option NodeModulesRes := none
  xcodeDerivedData : Option XcodeDD := none
  xcodeArchives : Option XcodeArch := none
  pyenvVersions : Option PyenvRes := none
deriving DecidableEq

/-- `handleDeveloperCleanup` (`src/index.js` lines 556-616). -/
def handleDeveloperCleanupWith (home : String)
    (cleanNodeModules cleanXcode cleanPyenvOldVersions dryRun : Bool) :
    M DeveloperCleanupResult := do
  let nodeModules ←
    if cleanNodeModules then do
      let r ← tryCatchE (do
          let out ← execCmd "find ~ -name \"node_modules\" -type d -prune 2>/dev/null | head -20"
          let dirs := (jsSplitOnStr out.jsTrim "\n").filter (fun d => d ≠ "")
          let analyzed ← nmScan (dirs.take 10)
          pure (NodeModulesRes.ok dirs.length analyzed dryRun))
        (fun e => pure (.err e))
      pure (some r)
    else pure none
  let xcodeDerivedData ←
    if cleanXcode then do
      let r ← tryCatchE (do
          let size ← execCmd ("du -sh \"" ++ home ++ "/Library/Developer/Xcode/DerivedData\" 2>/dev/null")
          if !dryRun then do
            let _ ← execCmd ("rm -rf \"" ++ home ++ "/Library/Developer/Xcode/DerivedData\"/* 2>/dev/null")
            pure ()
          else pure ()
          pure (XcodeDD.ok (firstField size) (if dryRun then "would clean" else "cleaned")))
        (fun _ => pure (.skipped "skipped" "Xcode not installed or empty"))
      pure (some r)
    else pure none
  let xcodeArchives ←
    if cleanXcode then
      tryCatchE (do
          let size ← execCmd ("du -sh \"" ++ home ++ "/Library/Developer/Xcode/Archives\" 2>/dev/null")
          pure (some ({ size := firstField size,
                        note := "Review before deleting - contains app builds" } : XcodeArch)))
        (fun _ => pure none)
    else pure none
  let pyenvVersions ←
    if cleanPyenvOldVersions then do
      let r ← tryCatchE (do
          let currentVersion ← execCmd "pyenv version-name 2>/dev/null"
          let allVersions ← execCmd "ls ~/.pyenv/versions/ 2>/dev/null"
          let versions := (jsSplitOnStr allVersions.jsTrim "\n").filter (fun v => v ≠ "")
          let versionInfo ← pyenvScan currentVersion.jsTrim versions
          pure (PyenvRes.ok currentVersion.jsTrim versionInfo
            "Run \x27pyenv uninstall VERSION\x27 to remove"))
        (fun _ => pure (.skipped "skipped" "pyenv not installed"))
      pure (some r)
    else pure none
  pure { nodeModules := nodeModules, xcodeDerivedData := xcodeDerivedData,
         xcodeArchives := xcodeArchives, pyenvVersions := pyenvVersions }

/-- The destructuring header `{ cleanNodeModules = false,
cleanXcode = false, cleanPyenvOldVersions = false, dryRun = true }` of
`handleDeveloperCleanup`. -/
def handleDeveloperCleanup (home : String) (args : Args) : M DeveloperCleanupResult :=
  handleDeveloperCleanupWith home (args.cleanNodeModules.getD false) (args.cleanXcode.getD false)
    (args.cleanPyenvOldVersions.getD false) (args.dryRun.getD true)

/-! ## Dispatch -/

/-- A tool-call result: one constructor per handler's result type. -/
inductive ToolResult where
  | diskUsage (r : DiskUsageResult)
  | goCacheStatus (r : GoCacheStatusResult)
  | cleanupCaches (r : CleanupCachesResult)
  | cleanupDocker (r : DockerCleanupResult)
  | memoryStatus (r : MemoryStatusResult)
  | cleanupRecommendations (r : List RecEntry)
  | emptyTrash (r : EmptyTrashResult)
  | fullCleanupWorkflow (r : WorkflowResult)
  | analyzeLibrary (r : AnalyzeLibraryResult)
  | developerCleanup (r : DeveloperCleanupResult)
  | cpuUsage (r : CpuUsageResult)
  | thermalStatus (r : ThermalStatusResult)
  | batteryHealth (r : BatteryHealthResult)
  | systemInfo (r : SystemInfoResult)
  | processList (r : ProcessListResult)
  | killProcess (r : KillResult)
  | startupItems (r : StartupItemsResult)
  | networkStatus (r : NetworkStatusResult)
deriving DecidableEq

/-- The `CallToolRequestSchema` handler (`src/index.js` lines 873-901):
a `switch` on the tool name routing to the bound handler with
`args || {}`; the default branch throws `Unknown tool`, the one failure
that escapes to the protocol layer.  (Serializing the result record to
JSON text is not modelled.) -/
def dispatch (home : String) (name : String) (args : Args) : M ToolResult :=
  match name with
  | "mac_disk_usage" => do let r ← handleDiskUsage home args; pure (.diskUsage r)
  | "mac_go_cache_status" => do let r ← handleGoCacheStatus; pure (.goCacheStatus r)
  | "mac_cleanup_caches" => do let r ← handleCleanupCaches home args; pure (.cleanupCaches r)
  | "mac_cleanup_docker" => do let r ← handleDockerCleanup args; pure (.cleanupDocker r)
  | "mac_memory_status" => do let r ← handleMemoryStatus; pure (.memoryStatus r)
  | "mac_cleanup_recommendations" => do
    let r ← handleCleanupRecommendations; pure (.cleanupRecommendations r)
  | "mac_empty_trash" => do let r ← handleEmptyTrash args; pure (.emptyTrash r)
  | "mac_full_cleanup_workflow" => do
    let r ← handleFullCleanupWorkflow home args; pure (.fullCleanupWorkflow r)
  | "mac_analyze_library" => do let r ← handleAnalyzeLibrary home; pure (.analyzeLibrary r)
  | "mac_developer_cleanup" => do
    let r ← handleDeveloperCleanup home args; pure (.developerCleanup r)
  | "mac_cpu_usage" => do let r ← handleCpuUsage args; pure (.cpuUsage r)
  | "mac_thermal_status" => do let r ← handleThermalStatus; pure (.thermalStatus r)
  | "mac_battery_health" => do let r ← handleBatteryHealth; pure (.batteryHealth r)
  | "mac_system_info" => do let r ← handleSystemInfo; pure (.systemInfo r)
  | "mac_process_list" => do let r ← handleProcessList args; pure (.processList r)
  | "mac_kill_process" => do let r ← handleKillProcess args; pure (.killProcess r)
  | "mac_startup_items" => do let r ← handleStartupItems args; pure (.startupItems r)
  | "mac_network_status" => do let r ← handleNetworkStatus; pure (.networkStatus r)
  | _ => ⟨fun _ n => (.error ("Unknown tool: " ++ name), n, [])⟩

/-! ## Specification-side definitions for the claims -/

/-- The `enum` declared for the `targets` items of `mac_cleanup_caches`
in the registry. -/
def cleanupTargetsEnum : List String :=
  (((tools.find? (fun t => t.tname = "mac_cleanup_caches")).bind
    (fun t => (t.params.find? (fun p => p.pname = "targets")).bind
      (fun p => p.enumVals))).getD [])

/-- The workflow record of a run outcome, when the handler returned
normally. -/
def wfResultOf : Except String WorkflowResult × Nat × List String → Option WorkflowResult
  | (.ok w, _, _) => some w
  | _ => none

/-- The recommendation of a `go_cache_status` run outcome, when the
handler returned its success record. -/
def goCacheRecOf : Except String GoCacheStatusResult × Nat × List String → Option String
  | (.ok (.ok _ _ rec _), _, _) => some rec
  | _ => none

/-- The substitution the specification describes for a dry run: step
records identical except that status `"cleaned"` reads
`"would clean"`. -/
def statusSwap (s : WorkflowStep) : WorkflowStep :=
  { s with status := if s.status = "cleaned" then "would clean" else s.status }

/-- The commands a dry run is allowed to issue: the size and status
probes (`du`, `df`, `go env GOCACHE`, `docker system df`), which only
read machine state. -/
def isReadOnlyCmd (c : String) : Bool :=
  "du ".data.isPrefixOf c.data || "df ".data.isPrefixOf c.data ||
  c = "go env GOCACHE" || "docker system df".data.isPrefixOf c.data

/-- Whether a per-target `cleanup_caches` entry is the `{error}` shape. -/
def CacheEntry.isErr : CacheEntry → Bool
  | .error _ => true
  | _ => false

/-- Whether an external-command outcome is a success. -/
def execOk : ExecRes → Bool
  | .ok _ => true
  | .error _ => false

/-! ## Totality lemmas -/

theorem mtotal_pure (a : α) : MTotal (pure a : M α) := by
  intro env n; rfl

theorem mtotal_bind {m : M α} {f : α → M β}
    (hm : MTotal m) (hf : ∀ a, MTotal (f a)) : MTotal (m >>= f) := by
  intro env n
  have h1 := hm env n
  simp only [Bind.bind, Monad.toBind]
  rcases hr : m.run env n with ⟨r, n1, t1⟩
  cases r with
  | ok a =>
    have h2 := hf a env n1
    rcases hr2 : (f a).run env n1 with ⟨r2, n2, t2⟩
    cases r2 with
    | ok b => simp [hr, hr2, resOk]
    | error e => rw [hr2] at h2; simp [resOk] at h2
  | error e => rw [hr] at h1; simp [resOk] at h1

theorem mtotal_tryCatchE {m : M α} {h : String → M α}
    (hh : ∀ e, MTotal (h e)) : MTotal (tryCatchE m h) := by
  intro env n
  rcases hr : m.run env n with ⟨r, n1, t1⟩
  cases r with
  | ok a => simp [tryCatchE, hr, resOk]
  | error e =>
    have h2 := hh e env n1
    rcases hr2 : (h e).run env n1 with ⟨r2, n2, t2⟩
    rw [hr2] at h2
    cases r2 with
    | ok b => simp [tryCatchE, hr, hr2, resOk]
    | error e2 => simp [resOk] at h2

theorem mtotal_ite {c : Prop} [Decidable c] {m1 m2 : M α}
    (h1 : MTotal m1) (h2 : MTotal m2) : MTotal (if c then m1 else m2) := by
  by_cases h : c <;> simp [h, h1, h2]

/-! ## Run-equation lemmas -/

theorem run_pure (a : α) (env : Env) (n : Nat) :
    (pure a : M α).run env n = (.ok a, n, []) := rfl

theorem run_bind (m : M α) (f : α → M β) (env : Env) (n : Nat) :
    (m >>= f).run env n =
      match m.run env n with
      | (.ok a, n1, t1) =>
        match (f a).run env n1 with
        | (r, n2, t2) => (r, n2, t1 ++ t2)
      | (.error e, n1, t1) => (.error e, n1, t1) := rfl

theorem run_exec (c : String) (env : Env) (n : Nat) :
    (execCmd c).run env n = (env n c, n + 1, [c]) := rfl

theorem run_tryCatchE (m : M α) (h : String → M α) (env : Env) (n : Nat) :
    (tryCatchE m h).run env n =
      match m.run env n with
      | (.ok a, n1, t1) => (.ok a, n1, t1)
      | (.error e, n1, t1) =>
        match (h e).run env n1 with
        | (r, n2, t2) => (r, n2, t1 ++ t2) := rfl

/-! ## C1: enum values are not validated at dispatch -/

/-- C1 counterexample: calling `mac_cleanup_caches` with
`targets: ["bogus"]` does not fail at dispatch with an `InvalidArgument`
error — the dispatcher performs no argument validation.  The call
returns the handler's normal success envelope (so the handler did
execute), with an empty `results` record and no external command
issued. -/
theorem c1_counterexample :
    (dispatch "/Users/u" "mac_cleanup_caches"
        { Args.empty with targets := some ["bogus"] }).run (fun _ _ => .ok "") 0 =
      (.ok (.cleanupCaches ⟨false, ⟨none, none, none, none, none, none⟩⟩), 0, []) := rfl

/-- C1 (amended): dispatch does no enum validation.  A `cleanup_caches`
call whose `targets` contains only the unknown value `"bogus"` — a value
outside the enumeration the registry declares for `targets` — is routed
to `handleCleanupCaches`, which executes normally: every per-target
block is skipped, no external command runs, and the result is the
in-band success record `{dryRun: false, results: {}}` rather than a
protocol-level failure. -/
theorem c1_no_dispatch_validation :
    ∀ (env : Env) (n : Nat) (home : String),
      (dispatch home "mac_cleanup_caches" { Args.empty with targets := some ["bogus"] }).run env n =
        (.ok (.cleanupCaches ⟨false, ⟨none, none, none, none, none, none⟩⟩), n, []) ∧
      cleanupTargetsEnum.contains "bogus" = false ∧
      cleanupTargetsEnum = ["go", "brew", "npm", "pip", "chrome", "spotify", "all"] := by
  intro env n home
  exact ⟨rfl, rfl, rfl⟩

/-! ## C2: recovered-space figure on capture failure -/

/-- C2 counterexample: with the first `df` capture failing and every
later command succeeding (`df` then reporting 300G available),
`full_cleanup_workflow` with `dryRun=false` records
`before = {error}` yet still reports `totalRecovered = "300.0G"` — the
missing before-capture is defaulted to `0` by
`parseFloat(workflow.before.available?.replace("G","") || 0)`, so the
figure is fabricated rather than reported as unavailable. -/
theorem c2_counterexample :
    (wfResultOf ((handleFullCleanupWorkflow "h" Args.empty).run
        (fun k _ => if k = 0 then .error "df: failed"
                    else .ok "/dev/d 500G 200G 300G 40% /") 0)).map
      (fun w => (w.before, w.totalRecovered)) =
      some (.err "df: failed", "300.0G") := rfl

/-- C2 (amended): the two capture failures behave differently.  If the
after-capture fails (first `df` succeeds, every later `df` fails),
`totalRecovered` keeps its `"calculating..."` placeholder, so no figure
is fabricated.  But if the before-capture fails and the after-capture
succeeds, the missing before value is defaulted to `0` and
`totalRecovered` is reported as the full after-capture availability
(here `"300.0G"`), a number derived from the defaulted value. -/
theorem c2_recovered_on_capture_failure :
    ∀ (msg : String),
      (wfResultOf ((handleFullCleanupWorkflow "h" Args.empty).run
          (fun k c => if k = 0 then .ok "/dev/d 500G 200G 300G 40% /"
                      else if c = dfCmd then .error msg
                      else .ok "/dev/d 500G 200G 300G 40% /") 0)).map
        (fun w => (w.after, w.totalRecovered)) = some (.err msg, "calculating...") ∧
      (wfResultOf ((handleFullCleanupWorkflow "h" Args.empty).run
          (fun k _ => if k = 0 then .error msg
                      else .ok "/dev/d 500G 200G 300G 40% /") 0)).map
        (fun w => (w.before, w.totalRecovered)) = some (.err msg, "300.0G") := by
  intro msg
  exact ⟨rfl, rfl⟩

/-! ## C7: go_cache_status thresholds -/

/-- C7: `go_cache_status` thresholds.  When both commands succeed the
handler returns path, size and a recommendation computed from the
parsed size: above 20 the recommendation contains "CRITICAL", above 10
(but not above 20) it contains "WARNING", otherwise it contains
"reasonable"; concretely, a reported size of `25G` yields a
recommendation containing "CRITICAL" and `5G` one containing
"reasonable". -/
theorem c7_go_cache_thresholds :
    (∀ (env : Env) (n : Nat) (pathOut sizeOut : String),
      env n "go env GOCACHE" = .ok pathOut →
      env (n + 1) (goCacheDuCmd pathOut.jsTrim) = .ok sizeOut →
      handleGoCacheStatus.run env n =
        (.ok (.ok pathOut.jsTrim sizeOut.jsTrim
          (goCacheRecommendation (goCacheSizeGB sizeOut))
          ⟨"go clean -cache", "go clean -testcache",
           "go clean -modcache (careful: re-downloads all modules)"⟩),
         n + 2, ["go env GOCACHE", goCacheDuCmd pathOut.jsTrim]) ∧
      ((goCacheSizeGB sizeOut).gtInt 20 = true →
        strContains (goCacheRecommendation (goCacheSizeGB sizeOut)) "CRITICAL") ∧
      ((goCacheSizeGB sizeOut).gtInt 10 = true → (goCacheSizeGB sizeOut).gtInt 20 = false →
        strContains (goCacheRecommendation (goCacheSizeGB sizeOut)) "WARNING") ∧
      ((goCacheSizeGB sizeOut).gtInt 10 = false →
        strContains (goCacheRecommendation (goCacheSizeGB sizeOut)) "reasonable")) ∧
    (∃ r, goCacheRecOf (handleGoCacheStatus.run
        (fun k _ => if k = 0 then .ok "/p\n" else .ok "25G\t/p\n") 0) = some r ∧
      strContains r "CRITICAL") ∧
    (∃ r, goCacheRecOf (handleGoCacheStatus.run
        (fun k _ => if k = 0 then .ok "/p\n" else .ok "5G") 0) = some r ∧
      strContains r "reasonable") := by
  refine ⟨?_, ?_, ?_⟩
  · intro env n pathOut sizeOut h1 h2
    refine ⟨?_, ?_, ?_, ?_⟩
    · simp [handleGoCacheStatus, run_tryCatchE, run_bind, run_exec, run_pure, h1, h2]
    · intro hgt
      simp only [goCacheRecommendation, hgt, if_true]
      exact ⟨"", ": Cache is very large. Run \x27go clean -cache\x27 to reclaim space.", rfl⟩
    · intro h10 h20
      simp only [goCacheRecommendation, h10, h20, if_true, if_false, Bool.false_eq_true]
      exact ⟨"", ": Cache is getting large. Consider cleaning with \x27go clean -cache\x27.", rfl⟩
    · intro h10
      have h20 : (goCacheSizeGB sizeOut).gtInt 20 = false := by
        unfold JNum.gtInt at h10 ⊢
        simp only [decide_eq_false_iff_not] at h10 ⊢
        omega
      simp only [goCacheRecommendation, h10, h20, Bool.false_eq_true, if_false]
      exact ⟨"Cache size is ", ".", rfl⟩
  · exact ⟨"CRITICAL: Cache is very large. Run \x27go clean -cache\x27 to reclaim space.", rfl,
      "", ": Cache is very large. Run \x27go clean -cache\x27 to reclaim space.", rfl⟩
  · exact ⟨"Cache size is reasonable.", rfl, "Cache size is ", ".", rfl⟩

/-- C7 witness: the general threshold theorem applied to a concrete
environment reporting a `25G` cache. -/
theorem c7_go_cache_thresholds_witness :
    handleGoCacheStatus.run (fun k _ => if k = 0 then .ok "/p\n" else .ok "25G\t/p\n") 0 =
      (.ok (.ok "/p" "25G\t/p" (goCacheRecommendation (goCacheSizeGB "25G\t/p\n"))
        ⟨"go clean -cache", "go clean -testcache",
         "go clean -modcache (careful: re-downloads all modules)"⟩),
       2, ["go env GOCACHE", goCacheDuCmd "/p"]) ∧
    strContains (goCacheRecommendation (goCacheSizeGB "25G\t/p\n")) "CRITICAL" := by
  have h := c7_go_cache_thresholds.1
    (fun k _ => if k = 0 then .ok "/p\n" else .ok "25G\t/p\n") 0 "/p\n" "25G\t/p\n" rfl rfl
  exact ⟨h.1, h.2.1 rfl⟩

/-! ## C8 and C10: kill_process contract -/

/-- C8: the `kill_process` contract.  With neither `pid` nor `name`
given (in the source's truthiness sense) the handler returns
`{success: false, error: "Must provide either pid or name"}` and issues
no external command.  With a (nonzero) `pid` the one command issued is
`kill -15 pid`, or `kill -9 pid` when `force`, i.e. SIGTERM resp.
SIGKILL.  With a (nonempty) `name` the handler first runs
`pgrep -f name | head -1` — resolving the name to the first matching
process — and, when that reports a pid, signals exactly that pid with
the same signal selection; when it reports nothing the handler returns
the `No process found` error without signalling. -/
theorem c8_kill_process_contract :
    (∀ (env : Env) (n : Nat) (fopt : Option Bool),
      (handleKillProcess { Args.empty with force := fopt }).run env n =
        (.ok (.failure "Must provide either pid or name"), n, [])) ∧
    (∀ (env : Env) (n : Nat) (p : Int) (nm : Option String) (fopt : Option Bool), p ≠ 0 →
      (handleKillProcess { Args.empty with pid := some p, name := nm, force := fopt }).run env n =
        (let force := fopt.getD false
         let cmd := "kill " ++ (if force then "-9" else "-15") ++ " " ++ toString p
         match env n cmd with
         | .ok _ => (.ok (.killedPid p (if force then "SIGKILL" else "SIGTERM")), n + 1, [cmd])
         | .error e => (.ok (.failure e), n + 1, [cmd]))) ∧
    (∀ (env : Env) (n : Nat) (nm : String) (fopt : Option Bool), nm ≠ "" →
      (handleKillProcess { Args.empty with name := some nm, force := fopt }).run env n =
        (let force := fopt.getD false
         let pg := "pgrep -f \"" ++ nm ++ "\" | head -1"
         match env n pg with
         | .error e => (.ok (.failure e), n + 1, [pg])
         | .ok out =>
           if out.jsTrim = "" then
             (.ok (.failure ("No process found matching: " ++ nm)), n + 1, [pg])
           else
             let kc := "kill " ++ (if force then "-9" else "-15") ++ " " ++ out.jsTrim
             match env (n + 1) kc with
             | .ok _ => (.ok (.killedName (jsParseInt out.jsTrim) nm
                 (if force then "SIGKILL" else "SIGTERM")), n + 2, [pg, kc])
             | .error e => (.ok (.failure e), n + 2, [pg, kc]))) := by
  refine ⟨?_, ?_, ?_⟩
  · intro env n fopt
    rfl
  · intro env n p nm fopt hp
    have ht : jsTruthyNum (some p) = true := by simp [jsTruthyNum, hp]
    rcases h : env n ("kill " ++ ((if fopt.getD false then "-9" else "-15")) ++ " " ++ toString p)
      with s | e <;>
      simp [handleKillProcess, handleKillProcessWith, run_tryCatchE, run_bind, run_exec, run_pure, ht, h]
  · intro env n nm fopt hnm
    have ht : jsTruthyStr (some nm) = true := by simp [jsTruthyStr, hnm]
    rcases h : env n ("pgrep -f \"" ++ nm ++ "\" | head -1") with e | s
    · simp [handleKillProcess, handleKillProcessWith, run_tryCatchE, run_bind, run_exec, run_pure,
        Args.empty, jsTruthyNum, ht, h]
    · by_cases he : s.jsTrim = ""
      · simp [handleKillProcess, handleKillProcessWith, run_tryCatchE, run_bind, run_exec, run_pure,
          Args.empty, jsTruthyNum, ht, h, he]
      · rcases h2 : env (n + 1)
            ("kill " ++ ((if fopt.getD false then "-9" else "-15")) ++ " " ++ s.jsTrim)
          with e2 | s2 <;>
          simp [handleKillProcess, handleKillProcessWith, run_tryCatchE, run_bind, run_exec, run_pure,
            Args.empty, jsTruthyNum, ht, h, he, h2]

/-- C8 witness: the contract applied at a concrete pid and a concrete
name lookup. -/
theorem c8_kill_process_contract_witness :
    (handleKillProcess { Args.empty with pid := some 123 }).run (fun _ _ => .ok "") 0 =
      (.ok (.killedPid 123 "SIGTERM"), 1, ["kill -15 123"]) ∧
    (handleKillProcess { Args.empty with name := some "node", force := some true }).run
        (fun _ _ => .ok "77\n") 0 =
      (.ok (.killedName (some 77) "node" "SIGKILL"), 2,
       ["pgrep -f \"node\" | head -1", "kill -9 77"]) := by
  constructor
  · exact c8_kill_process_contract.2.1 (fun _ _ => .ok "") 0 123 none none (by decide)
  · exact c8_kill_process_contract.2.2 (fun _ _ => .ok "77\n") 0 "node" (some true) (by decide)

/-- C10: `kill_process` treats `pid: 0` as absent.  With `pid: 0` and no
`name` the handler returns the `Must provide either pid or name` error
and issues no command; with `pid: 0` and a `name` the run is literally
the run of the same call without the pid, i.e. resolution and
signalling happen by name. -/
theorem c10_kill_pid_zero :
    ∀ (env : Env) (n : Nat) (nm : String) (fopt : Option Bool),
      (handleKillProcess { Args.empty with pid := some 0, force := fopt }).run env n =
        (.ok (.failure "Must provide either pid or name"), n, []) ∧
      (handleKillProcess { Args.empty with pid := some 0, name := some nm, force := fopt }).run env n =
        (handleKillProcess { Args.empty with name := some nm, force := fopt }).run env n := by
  intro env n nm fopt
  exact ⟨rfl, rfl⟩

/-! ## Per-step lemmas for the workflow -/

theorem wfBeforeState_spec (env : Env) (n : Nat) :
    ∃ st, wfBeforeState.run env n = (.ok st, n + 1, [dfCmd]) := by
  rcases h : env n dfCmd with e | s <;>
    · simp only [wfBeforeState, run_tryCatchE, run_bind, run_exec, run_pure, h]
      exact ⟨_, rfl⟩
theorem wfTrashStep_spec (env : Env) (n : Nat) (d : Bool) :
    ∃ s n1 t, (wfTrashStep d).run env n = (.ok s, n1, t) ∧ s.name = "Empty Trash" ∧
      (d = true → t.all isReadOnlyCmd = true) := by
  cases d
  · rcases h : env n "du -sh ~/.Trash 2>/dev/null" with e | ts
    · refine ⟨⟨"Empty Trash", none, "skipped", none, some e, none, none⟩, n + 1,
        ["du -sh ~/.Trash 2>/dev/null"], ?_, rfl, fun hh => nomatch hh⟩
      simp [wfTrashStep, run_tryCatchE, run_bind, run_exec, run_pure, h]
    · rcases h2 : env (n + 1) "rm -rf ~/.Trash/* 2>/dev/null" with e2 | s2
      · refine ⟨⟨"Empty Trash", none, "skipped", none, some e2, none, none⟩, n + 2,
          ["du -sh ~/.Trash 2>/dev/null", "rm -rf ~/.Trash/* 2>/dev/null"], ?_, rfl,
          fun hh => nomatch hh⟩
        simp [wfTrashStep, run_tryCatchE, run_bind, run_exec, run_pure, h, h2]
      · refine ⟨⟨"Empty Trash", firstField ts, "cleaned", none, none, none, none⟩, n + 2,
          ["du -sh ~/.Trash 2>/dev/null", "rm -rf ~/.Trash/* 2>/dev/null"], ?_, rfl,
          fun hh => nomatch hh⟩
        simp [wfTrashStep, run_tryCatchE, run_bind, run_exec, run_pure, h, h2]
  · rcases h : env n "du -sh ~/.Trash 2>/dev/null" with e | ts
    · refine ⟨⟨"Empty Trash", none, "skipped", none, some e, none, none⟩, n + 1,
        ["du -sh ~/.Trash 2>/dev/null"], ?_, rfl, fun _ => by decide⟩
      simp [wfTrashStep, run_tryCatchE, run_bind, run_exec, run_pure, h]
    · refine ⟨⟨"Empty Trash", firstField ts, "would clean", none, none, none, none⟩, n + 1,
        ["du -sh ~/.Trash 2>/dev/null"], ?_, rfl, fun _ => by decide⟩
      simp [wfTrashStep, run_tryCatchE, run_bind, run_exec, run_pure, h]

theorem wfGoStep_spec (env : Env) (n : Nat) (d : Bool) :
    ∃ s n1 t, (wfGoStep d).run env n = (.ok s, n1, t) ∧ s.name = "Go Build Cache" ∧
      (d = true → t.all isReadOnlyCmd = true) := by
  cases d
  · rcases h : env n "go env GOCACHE" with e | ts
    · refine ⟨⟨"Go Build Cache", none, "skipped", none, none,
        some "Go not installed or cache empty", none⟩, n + 1, ["go env GOCACHE"], ?_, rfl,
        fun hh => nomatch hh⟩
      simp [wfGoStep, run_tryCatchE, run_bind, run_exec, run_pure, h]
    · rcases h2 : env (n + 1) ("du -sh \"" ++ ts.jsTrim ++ "\" 2>/dev/null") with e2 | cs
      · refine ⟨⟨"Go Build Cache", none, "skipped", none, none,
          some "Go not installed or cache empty", none⟩, n + 2,
          ["go env GOCACHE", "du -sh \"" ++ ts.jsTrim ++ "\" 2>/dev/null"], ?_, rfl,
          fun hh => nomatch hh⟩
        simp [wfGoStep, run_tryCatchE, run_bind, run_exec, run_pure, h, h2]
      · rcases h3 : env (n + 2) "go clean -cache" with e3 | s3
        · refine ⟨⟨"Go Build Cache", none, "skipped", none, none,
            some "Go not installed or cache empty", none⟩, n + 3,
            ["go env GOCACHE", "du -sh \"" ++ ts.jsTrim ++ "\" 2>/dev/null",
             "go clean -cache"], ?_, rfl, fun hh => nomatch hh⟩
          simp [wfGoStep, run_tryCatchE, run_bind, run_exec, run_pure, h, h2, h3]
        · refine ⟨⟨"Go Build Cache", firstField cs, "cleaned", none, none, none, none⟩, n + 3,
            ["go env GOCACHE", "du -sh \"" ++ ts.jsTrim ++ "\" 2>/dev/null",
             "go clean -cache"], ?_, rfl, fun hh => nomatch hh⟩
          simp [wfGoStep, run_tryCatchE, run_bind, run_exec, run_pure, h, h2, h3]
  · rcases h : env n "go env GOCACHE" with e | ts
    · refine ⟨⟨"Go Build Cache", none, "skipped", none, none,
        some "Go not installed or cache empty", none⟩, n + 1, ["go env GOCACHE"], ?_, rfl,
        fun _ => by decide⟩
      simp [wfGoStep, run_tryCatchE, run_bind, run_exec, run_pure, h]
    · rcases h2 : env (n + 1) ("du -sh \"" ++ ts.jsTrim ++ "\" 2>/dev/null") with e2 | cs
      · refine ⟨⟨"Go Build Cache", none, "skipped", none, none,
          some "Go not installed or cache empty", none⟩, n + 2,
          ["go env GOCACHE", "du -sh \"" ++ ts.jsTrim ++ "\" 2>/dev/null"], ?_, rfl,
          fun _ => by rfl⟩
        simp [wfGoStep, run_tryCatchE, run_bind, run_exec, run_pure, h, h2]
      · refine ⟨⟨"Go Build Cache", firstField cs, "would clean", none, none, none, none⟩, n + 2,
          ["go env GOCACHE", "du -sh \"" ++ ts.jsTrim ++ "\" 2>/dev/null"], ?_, rfl,
          fun _ => by rfl⟩
        simp [wfGoStep, run_tryCatchE, run_bind, run_exec, run_pure, h, h2]

theorem wfBrewStep_spec (env : Env) (n : Nat) (d : Bool) :
    ∃ s n1 t, (wfBrewStep d).run env n = (.ok s, n1, t) ∧ s.name = "Homebrew Cache" ∧
      (d = true → t.all isReadOnlyCmd = true) := by
  cases d
  · rcases h : env n "du -sh ~/Library/Caches/Homebrew 2>/dev/null" with e | bs
    · refine ⟨⟨"Homebrew Cache", none, "skipped", none, none, none, none⟩, n + 1,
        ["du -sh ~/Library/Caches/Homebrew 2>/dev/null"], ?_, rfl, fun hh => nomatch hh⟩
      simp [wfBrewStep, run_tryCatchE, run_bind, run_exec, run_pure, h]
    · rcases h2 : env (n + 1)
          "brew cleanup --prune=all 2>&1 | grep -E \x27freed|Removing\x27 | tail -1" with e2 | out
      · refine ⟨⟨"Homebrew Cache", none, "skipped", none, none, none, none⟩, n + 2,
          ["du -sh ~/Library/Caches/Homebrew 2>/dev/null",
           "brew cleanup --prune=all 2>&1 | grep -E \x27freed|Removing\x27 | tail -1"], ?_, rfl,
          fun hh => nomatch hh⟩
        simp [wfBrewStep, run_tryCatchE, run_bind, run_exec, run_pure, h, h2]
      · refine ⟨⟨"Homebrew Cache", firstField bs, "cleaned", some out.jsTrim, none, none, none⟩,
          n + 2,
          ["du -sh ~/Library/Caches/Homebrew 2>/dev/null",
           "brew cleanup --prune=all 2>&1 | grep -E \x27freed|Removing\x27 | tail -1"], ?_, rfl,
          fun hh => nomatch hh⟩
        simp [wfBrewStep, run_tryCatchE, run_bind, run_exec, run_pure, h, h2]
  · rcases h : env n "du -sh ~/Library/Caches/Homebrew 2>/dev/null" with e | bs
    · refine ⟨⟨"Homebrew Cache", none, "skipped", none, none, none, none⟩, n + 1,
        ["du -sh ~/Library/Caches/Homebrew 2>/dev/null"], ?_, rfl, fun _ => by decide⟩
      simp [wfBrewStep, run_tryCatchE, run_bind, run_exec, run_pure, h]
    · refine ⟨⟨"Homebrew Cache", firstField bs, "would clean", none, none, none, none⟩, n + 1,
        ["du -sh ~/Library/Caches/Homebrew 2>/dev/null"], ?_, rfl, fun _ => by decide⟩
      simp [wfBrewStep, run_tryCatchE, run_bind, run_exec, run_pure, h]

theorem wfChromeStep_spec (env : Env) (n : Nat) (home : String) (d : Bool) :
    ∃ s n1 t, (wfChromeStep home d).run env n = (.ok s, n1, t) ∧ s.name = "Chrome Cache" ∧
      (d = true → t.all isReadOnlyCmd = true) := by
  cases d
  · rcases h : env n ("du -sh \"" ++ home ++ "/Library/Caches/Google/Chrome\" 2>/dev/null")
        with e | cs
    · refine ⟨⟨"Chrome Cache", none, "skipped", none, none, none, none⟩, n + 1,
        ["du -sh \"" ++ home ++ "/Library/Caches/Google/Chrome\" 2>/dev/null"], ?_, rfl,
        fun hh => nomatch hh⟩
      simp [wfChromeStep, run_tryCatchE, run_bind, run_exec, run_pure, h]
    · rcases h2 : env (n + 1)
          ("rm -rf \"" ++ home ++ "/Library/Caches/Google/Chrome\"/* 2>/dev/null") with e2 | s2
      · refine ⟨⟨"Chrome Cache", none, "skipped", none, none, none, none⟩, n + 2,
          ["du -sh \"" ++ home ++ "/Library/Caches/Google/Chrome\" 2>/dev/null",
           "rm -rf \"" ++ home ++ "/Library/Caches/Google/Chrome\"/* 2>/dev/null"], ?_, rfl,
          fun hh => nomatch hh⟩
        simp [wfChromeStep, run_tryCatchE, run_bind, run_exec, run_pure, h, h2]
      · refine ⟨⟨"Chrome Cache", firstField cs, "cleaned", none, none, none, none⟩, n + 2,
          ["du -sh \"" ++ home ++ "/Library/Caches/Google/Chrome\" 2>/dev/null",
           "rm -rf \"" ++ home ++ "/Library/Caches/Google/Chrome\"/* 2>/dev/null"], ?_, rfl,
          fun hh => nomatch hh⟩
        simp [wfChromeStep, run_tryCatchE, run_bind, run_exec, run_pure, h, h2]
  · rcases h : env n ("du -sh \"" ++ home ++ "/Library/Caches/Google/Chrome\" 2>/dev/null")
        with e | cs
    · refine ⟨⟨"Chrome Cache", none, "skipped", none, none, none, none⟩, n + 1,
        ["du -sh \"" ++ home ++ "/Library/Caches/Google/Chrome\" 2>/dev/null"], ?_, rfl,
        fun _ => by rfl⟩
      simp [wfChromeStep, run_tryCatchE, run_bind, run_exec, run_pure, h]
    · refine ⟨⟨"Chrome Cache", firstField cs, "would clean", none, none, none, none⟩, n + 1,
        ["du -sh \"" ++ home ++ "/Library/Caches/Google/Chrome\" 2>/dev/null"], ?_, rfl,
        fun _ => by rfl⟩
      simp [wfChromeStep, run_tryCatchE, run_bind, run_exec, run_pure, h]

theorem wfSpotifyStep_spec (env : Env) (n : Nat) (home : String) (d : Bool) :
    ∃ s n1 t, (wfSpotifyStep home d).run env n = (.ok s, n1, t) ∧ s.name = "Spotify Cache" ∧
      (d = true → t.all isReadOnlyCmd = true) := by
  cases d
  · rcases h : env n ("du -sh \"" ++ home ++ "/Library/Caches/com.spotify.client\" 2>/dev/null")
        with e | cs
    · refine ⟨⟨"Spotify Cache", none, "skipped", none, none, none, none⟩, n + 1,
        ["du -sh \"" ++ home ++ "/Library/Caches/com.spotify.client\" 2>/dev/null"], ?_, rfl,
        fun hh => nomatch hh⟩
      simp [wfSpotifyStep, run_tryCatchE, run_bind, run_exec, run_pure, h]
    · rcases h2 : env (n + 1)
          ("rm -rf \"" ++ home ++ "/Library/Caches/com.spotify.client\"/* 2>/dev/null") with e2 | s2
      · refine ⟨⟨"Spotify Cache", none, "skipped", none, none, none, none⟩, n + 2,
          ["du -sh \"" ++ home ++ "/Library/Caches/com.spotify.client\" 2>/dev/null",
           "rm -rf \"" ++ home ++ "/Library/Caches/com.spotify.client\"/* 2>/dev/null"], ?_, rfl,
          fun hh => nomatch hh⟩
        simp [wfSpotifyStep, run_tryCatchE, run_bind, run_exec, run_pure, h, h2]
      · refine ⟨⟨"Spotify Cache", firstField cs, "cleaned", none, none, none, none⟩, n + 2,
          ["du -sh \"" ++ home ++ "/Library/Caches/com.spotify.client\" 2>/dev/null",
           "rm -rf \"" ++ home ++ "/Library/Caches/com.spotify.client\"/* 2>/dev/null"], ?_, rfl,
          fun hh => nomatch hh⟩
        simp [wfSpotifyStep, run_tryCatchE, run_bind, run_exec, run_pure, h, h2]
  · rcases h : env n ("du -sh \"" ++ home ++ "/Library/Caches/com.spotify.client\" 2>/dev/null")
        with e | cs
    · refine ⟨⟨"Spotify Cache", none, "skipped", none, none, none, none⟩, n + 1,
        ["du -sh \"" ++ home ++ "/Library/Caches/com.spotify.client\" 2>/dev/null"], ?_, rfl,
        fun _ => by rfl⟩
      simp [wfSpotifyStep, run_tryCatchE, run_bind, run_exec, run_pure, h]
    · refine ⟨⟨"Spotify Cache", firstField cs, "would clean", none, none, none, none⟩, n + 1,
        ["du -sh \"" ++ home ++ "/Library/Caches/com.spotify.client\" 2>/dev/null"], ?_, rfl,
        fun _ => by rfl⟩
      simp [wfSpotifyStep, run_tryCatchE, run_bind, run_exec, run_pure, h]

theorem wfNpmStep_spec (env : Env) (n : Nat) (d : Bool) :
    ∃ s n1 t, (wfNpmStep d).run env n = (.ok s, n1, t) ∧ s.name = "npm Cache" ∧
      (d = true → t.all isReadOnlyCmd = true) := by
  cases d
  · rcases h : env n "npm cache clean --force 2>/dev/null" with e | s
    · refine ⟨⟨"npm Cache", none, "skipped", none, none, none, none⟩, n + 1,
        ["npm cache clean --force 2>/dev/null"], ?_, rfl, fun hh => nomatch hh⟩
      simp [wfNpmStep, run_tryCatchE, run_bind, run_exec, run_pure, h]
    · refine ⟨⟨"npm Cache", none, "cleaned", none, none, none, none⟩, n + 1,
        ["npm cache clean --force 2>/dev/null"], ?_, rfl, fun hh => nomatch hh⟩
      simp [wfNpmStep, run_tryCatchE, run_bind, run_exec, run_pure, h]
  · refine ⟨⟨"npm Cache", none, "would clean", none, none, none, none⟩, n, [], ?_, rfl,
      fun _ => by decide⟩
    rfl

theorem wfPipStep_spec (env : Env) (n : Nat) (d : Bool) :
    ∃ s n1 t, (wfPipStep d).run env n = (.ok s, n1, t) ∧ s.name = "pip Cache" ∧
      (d = true → t.all isReadOnlyCmd = true) := by
  cases d
  · rcases h : env n "pip cache purge 2>/dev/null" with e | s
    · refine ⟨⟨"pip Cache", none, "skipped", none, none, none, none⟩, n + 1,
        ["pip cache purge 2>/dev/null"], ?_, rfl, fun hh => nomatch hh⟩
      simp [wfPipStep, run_tryCatchE, run_bind, run_exec, run_pure, h]
    · refine ⟨⟨"pip Cache", none, "cleaned", none, none, none, none⟩, n + 1,
        ["pip cache purge 2>/dev/null"], ?_, rfl, fun hh => nomatch hh⟩
      simp [wfPipStep, run_tryCatchE, run_bind, run_exec, run_pure, h]
  · refine ⟨⟨"pip Cache", none, "would clean", none, none, none, none⟩, n, [], ?_, rfl,
      fun _ => by decide⟩
    rfl

theorem wfDockerStep_spec (env : Env) (n : Nat) (d v : Bool) :
    ∃ s n1 t, (wfDockerStep d v).run env n = (.ok s, n1, t) ∧ s.name = "Docker" ∧
      (d = true → t.all isReadOnlyCmd = true) := by
  cases d
  · rcases h : env n
        "docker system df --format \x27\x7b\x7b.TotalCount\x7d\x7d \x7b\x7b.Size\x7d\x7d\x27 2>/dev/null"
        with e | df
    · refine ⟨⟨"Docker", none, "skipped", none, none, some "Docker not running", none⟩, n + 1,
        ["docker system df --format \x27\x7b\x7b.TotalCount\x7d\x7d \x7b\x7b.Size\x7d\x7d\x27 2>/dev/null"],
        ?_, rfl, fun hh => nomatch hh⟩
      simp [wfDockerStep, run_tryCatchE, run_bind, run_exec, run_pure, h]
    · rcases h2 : env (n + 1) "docker system prune -af 2>/dev/null" with e2 | s2
      · refine ⟨⟨"Docker", none, "skipped", none, none, some "Docker not running", none⟩, n + 2,
          ["docker system df --format \x27\x7b\x7b.TotalCount\x7d\x7d \x7b\x7b.Size\x7d\x7d\x27 2>/dev/null",
           "docker system prune -af 2>/dev/null"], ?_, rfl, fun hh => nomatch hh⟩
        simp [wfDockerStep, run_tryCatchE, run_bind, run_exec, run_pure, h, h2]
      · cases v
        · refine ⟨⟨"Docker", none, "cleaned", some df.jsTrim, none, none, some false⟩, n + 2,
            ["docker system df --format \x27\x7b\x7b.TotalCount\x7d\x7d \x7b\x7b.Size\x7d\x7d\x27 2>/dev/null",
             "docker system prune -af 2>/dev/null"], ?_, rfl, fun hh => nomatch hh⟩
          simp [wfDockerStep, run_tryCatchE, run_bind, run_exec, run_pure, h, h2]
        · rcases h3 : env (n + 2) "docker volume prune -f 2>/dev/null" with e3 | s3
          · refine ⟨⟨"Docker", none, "skipped", none, none, some "Docker not running", none⟩,
              n + 3,
              ["docker system df --format \x27\x7b\x7b.TotalCount\x7d\x7d \x7b\x7b.Size\x7d\x7d\x27 2>/dev/null",
               "docker system prune -af 2>/dev/null", "docker volume prune -f 2>/dev/null"],
              ?_, rfl, fun hh => nomatch hh⟩
            simp [wfDockerStep, run_tryCatchE, run_bind, run_exec, run_pure, h, h2, h3]
          · refine ⟨⟨"Docker", none, "cleaned", some df.jsTrim, none, none, some true⟩, n + 3,
              ["docker system df --format \x27\x7b\x7b.TotalCount\x7d\x7d \x7b\x7b.Size\x7d\x7d\x27 2>/dev/null",
               "docker system prune -af 2>/dev/null", "docker volume prune -f 2>/dev/null"],
              ?_, rfl, fun hh => nomatch hh⟩
            simp [wfDockerStep, run_tryCatchE, run_bind, run_exec, run_pure, h, h2, h3]
  · rcases h : env n
        "docker system df --format \x27\x7b\x7b.TotalCount\x7d\x7d \x7b\x7b.Size\x7d\x7d\x27 2>/dev/null"
        with e | df
    · refine ⟨⟨"Docker", none, "skipped", none, none, some "Docker not running", none⟩, n + 1,
        ["docker system df --format \x27\x7b\x7b.TotalCount\x7d\x7d \x7b\x7b.Size\x7d\x7d\x27 2>/dev/null"],
        ?_, rfl, fun _ => by decide⟩
      simp [wfDockerStep, run_tryCatchE, run_bind, run_exec, run_pure, h]
    · refine ⟨⟨"Docker", none, "would clean", some df.jsTrim, none, none, some v⟩, n + 1,
        ["docker system df --format \x27\x7b\x7b.TotalCount\x7d\x7d \x7b\x7b.Size\x7d\x7d\x27 2>/dev/null"],
        ?_, rfl, fun _ => by decide⟩
      simp [wfDockerStep, run_tryCatchE, run_bind, run_exec, run_pure, h]

theorem wfAfterState_spec (env : Env) (n : Nat) (before : DiskState) (d : Bool) :
    ∃ p n1 t, (wfAfterState d before).run env n = (.ok p, n1, t) ∧
      (d = true → t = []) ∧ (d = false → t = [dfCmd]) := by
  cases d
  · rcases h : env n dfCmd with e | s
    · have heq : (wfAfterState false before).run env n =
          (.ok ((.err e : DiskState), "calculating..."), n + 1, [dfCmd]) := by
        simp [wfAfterState, run_tryCatchE, run_bind, run_exec, run_pure, h]
      refine ⟨_, _, _, heq, ?_, ?_⟩
      · intro hh; exact absurd hh (by decide)
      · intro _; rfl
    · have heq : (wfAfterState false before).run env n =
          (.ok (parseDfLine s, recoveredStr before (parseDfLine s)), n + 1, [dfCmd]) := by
        simp [wfAfterState, run_tryCatchE, run_bind, run_exec, run_pure, h]
      refine ⟨_, _, _, heq, ?_, ?_⟩
      · intro hh; exact absurd hh (by decide)
      · intro _; rfl
  · refine ⟨((.note "Dry run - no changes made" : DiskState), "calculating..."), n, [], rfl, ?_, ?_⟩
    · intro _; rfl
    · intro hh; exact absurd hh (by decide)

/-- C5: `full_cleanup_workflow` appends step records in the fixed order
empty trash, Go build cache, Homebrew cache, Chrome cache, Spotify
cache, npm cache, pip cache, then — exactly when `includeDocker` — the
Docker step last, for every environment and argument record.  The
before-state capture (`df`) is the first command of every run and, on a
real run, the after-state capture (`df`) is the last command, so the
Docker step sits immediately before the after-state capture; a dry run
performs no after-state capture. -/
theorem c5_workflow_step_order :
    ∀ (env : Env) (n : Nat) (home : String) (args : Args),
      ∃ w n1 tr,
        (handleFullCleanupWorkflow home args).run env n = (.ok w, n1, tr) ∧
        w.steps.map (fun s => s.name) =
          ["Empty Trash", "Go Build Cache", "Homebrew Cache", "Chrome Cache",
           "Spotify Cache", "npm Cache", "pip Cache"] ++
          (if args.includeDocker.getD false then ["Docker"] else []) ∧
        ∃ mid, tr = dfCmd :: (mid ++ (if args.dryRun.getD false then [] else [dfCmd])) := by
  intro env n home args
  rcases hdry : args.dryRun.getD false with _ | _ <;>
  obtain ⟨b, hb⟩ := wfBeforeState_spec env n <;>
  obtain ⟨s2, m2, t2, h2, hn2, hr2⟩ := wfTrashStep_spec env (n + 1) (args.dryRun.getD false) <;>
  obtain ⟨s3, m3, t3, h3, hn3, hr3⟩ := wfGoStep_spec env m2 (args.dryRun.getD false) <;>
  obtain ⟨s4, m4, t4, h4, hn4, hr4⟩ := wfBrewStep_spec env m3 (args.dryRun.getD false) <;>
  obtain ⟨s5, m5, t5, h5, hn5, hr5⟩ := wfChromeStep_spec env m4 home (args.dryRun.getD false) <;>
  obtain ⟨s6, m6, t6, h6, hn6, hr6⟩ := wfSpotifyStep_spec env m5 home (args.dryRun.getD false) <;>
  obtain ⟨s7, m7, t7, h7, hn7, hr7⟩ := wfNpmStep_spec env m6 (args.dryRun.getD false) <;>
  obtain ⟨s8, m8, t8, h8, hn8, hr8⟩ := wfPipStep_spec env m7 (args.dryRun.getD false) <;>
  rcases hdock : args.includeDocker.getD false with _ | _
  · -- real run, no docker
    obtain ⟨p, m10, t10, h10, _, hreal⟩ := wfAfterState_spec env m8 b (args.dryRun.getD false)
    rw [hdry] at h2 h3 h4 h5 h6 h7 h8 h10 hreal
    simp only [handleFullCleanupWorkflow, handleFullCleanupWorkflowWith, run_bind, run_pure, hb, h2, h3, h4, h5, h6, h7, h8,
      hdry, hdock, Bool.false_eq_true, if_false, ite_false, h10, List.append_nil,
      List.singleton_append]
    refine ⟨_, _, _, rfl, ?_, ?_⟩
    · simp [hn2, hn3, hn4, hn5, hn6, hn7, hn8, hdock]
    · refine ⟨t2 ++ (t3 ++ (t4 ++ (t5 ++ (t6 ++ (t7 ++ t8))))), ?_⟩
      rw [hreal rfl]
      simp [List.append_assoc]
  · -- real run, docker
    obtain ⟨s9, m9, t9, h9, hn9, hr9⟩ :=
      wfDockerStep_spec env m8 (args.dryRun.getD false) (args.includeDockerVolumes.getD false)
    obtain ⟨p, m10, t10, h10, _, hreal⟩ := wfAfterState_spec env m9 b (args.dryRun.getD false)
    rw [hdry] at h2 h3 h4 h5 h6 h7 h8 h9 h10 hreal
    simp only [handleFullCleanupWorkflow, handleFullCleanupWorkflowWith, run_bind, run_pure, hb, h2, h3, h4, h5, h6, h7, h8,
      hdry, hdock, if_true, ite_true, h9, h10, List.append_nil, List.singleton_append]
    refine ⟨_, _, _, rfl, ?_, ?_⟩
    · simp [hn2, hn3, hn4, hn5, hn6, hn7, hn8, hn9, hdock]
    · refine ⟨t2 ++ (t3 ++ (t4 ++ (t5 ++ (t6 ++ (t7 ++ (t8 ++ t9)))))), ?_⟩
      rw [hreal rfl]
      simp [List.append_assoc]
  · -- dry run, no docker
    obtain ⟨p, m10, t10, h10, hdryt, _⟩ := wfAfterState_spec env m8 b (args.dryRun.getD false)
    rw [hdry] at h2 h3 h4 h5 h6 h7 h8 h10 hdryt
    simp only [handleFullCleanupWorkflow, handleFullCleanupWorkflowWith, run_bind, run_pure, hb, h2, h3, h4, h5, h6, h7, h8,
      hdry, hdock, Bool.false_eq_true, if_false, ite_false, h10, List.append_nil,
      List.singleton_append]
    refine ⟨_, _, _, rfl, ?_, ?_⟩
    · simp [hn2, hn3, hn4, hn5, hn6, hn7, hn8, hdock]
    · refine ⟨t2 ++ (t3 ++ (t4 ++ (t5 ++ (t6 ++ (t7 ++ t8))))), ?_⟩
      rw [hdryt rfl]
      simp [List.append_assoc]
  · -- dry run, docker
    obtain ⟨s9, m9, t9, h9, hn9, hr9⟩ :=
      wfDockerStep_spec env m8 (args.dryRun.getD false) (args.includeDockerVolumes.getD false)
    obtain ⟨p, m10, t10, h10, hdryt, _⟩ := wfAfterState_spec env m9 b (args.dryRun.getD false)
    rw [hdry] at h2 h3 h4 h5 h6 h7 h8 h9 h10 hdryt
    simp only [handleFullCleanupWorkflow, handleFullCleanupWorkflowWith, run_bind, run_pure, hb, h2, h3, h4, h5, h6, h7, h8,
      hdry, hdock, if_true, ite_true, h9, h10, List.append_nil, List.singleton_append]
    refine ⟨_, _, _, rfl, ?_, ?_⟩
    · simp [hn2, hn3, hn4, hn5, hn6, hn7, hn8, hn9, hdock]
    · refine ⟨t2 ++ (t3 ++ (t4 ++ (t5 ++ (t6 ++ (t7 ++ (t8 ++ t9)))))), ?_⟩
      rw [hdryt rfl]
      simp [List.append_assoc]

/-- C3 counterexample: with every external command succeeding with the
same output, the dry-run step records are not obtained from the real-run
records by substituting status `"would clean"` for `"cleaned"` alone:
the real run's Homebrew step carries an extra `detail` field. -/
theorem c3_counterexample :
    ¬ ((wfResultOf ((handleFullCleanupWorkflow "h" { Args.empty with dryRun := some true }).run
          (fun _ _ => .ok "1.0G\t/x\n") 0)).map (fun w => w.steps) =
       (wfResultOf ((handleFullCleanupWorkflow "h" { Args.empty with dryRun := some false }).run
          (fun _ _ => .ok "1.0G\t/x\n") 0)).map (fun w => w.steps.map statusSwap)) := by
  decide

/-- C3 (amended): under identical external-command outputs (every
command succeeding deterministically), the dry run produces step records
identical to the real run's in identical order with `"would clean"`
substituted for `"cleaned"`, except that the real run's Homebrew step
additionally carries a `detail` field absent from the dry run; and a dry
run is non-destructive for every environment: every command it issues is
one of the read-only probes (`du`, `df`, `go env GOCACHE`,
`docker system df`). -/
theorem c3_dry_run_step_records :
    (∀ (out : String → String) (home : String) (inclD inclV : Bool),
      (wfResultOf ((handleFullCleanupWorkflow home
          { Args.empty with includeDocker := some inclD, includeDockerVolumes := some inclV,
                            dryRun := some true }).run (fun _ c => .ok (out c)) 0)).map
        (fun w => w.steps) =
      (wfResultOf ((handleFullCleanupWorkflow home
          { Args.empty with includeDocker := some inclD, includeDockerVolumes := some inclV,
                            dryRun := some false }).run (fun _ c => .ok (out c)) 0)).map
        (fun w => w.steps.map (fun s =>
          { statusSwap s with detail := if s.name = "Homebrew Cache" then none else s.detail }))) ∧
    (∀ (env : Env) (n : Nat) (home : String) (inclD inclV : Bool),
      (((handleFullCleanupWorkflow home
          { Args.empty with includeDocker := some inclD, includeDockerVolumes := some inclV,
                            dryRun := some true }).run env n).2.2).all isReadOnlyCmd = true) := by
  constructor
  · intro out home inclD inclV
    cases inclD <;> cases inclV <;> rfl
  · intro env n home inclD inclV
    have hdf : isReadOnlyCmd dfCmd = true := by decide
    obtain ⟨b, hb⟩ := wfBeforeState_spec env n
    obtain ⟨s2, m2, t2, h2, _, hr2⟩ := wfTrashStep_spec env (n + 1) true
    obtain ⟨s3, m3, t3, h3, _, hr3⟩ := wfGoStep_spec env m2 true
    obtain ⟨s4, m4, t4, h4, _, hr4⟩ := wfBrewStep_spec env m3 true
    obtain ⟨s5, m5, t5, h5, _, hr5⟩ := wfChromeStep_spec env m4 home true
    obtain ⟨s6, m6, t6, h6, _, hr6⟩ := wfSpotifyStep_spec env m5 home true
    obtain ⟨s7, m7, t7, h7, _, hr7⟩ := wfNpmStep_spec env m6 true
    obtain ⟨s8, m8, t8, h8, _, hr8⟩ := wfPipStep_spec env m7 true
    cases inclD
    · obtain ⟨p, m10, t10, h10, hdryt, _⟩ := wfAfterState_spec env m8 b true
      simp [handleFullCleanupWorkflow, handleFullCleanupWorkflowWith, run_bind, run_pure, hb, h2, h3, h4, h5,
        h6, h7, h8, h10, List.all_append, hdf, hr2 rfl, hr3 rfl, hr4 rfl, hr5 rfl, hr6 rfl,
        hr7 rfl, hr8 rfl, hdryt rfl]
    · obtain ⟨s9, m9, t9, h9, _, hr9⟩ := wfDockerStep_spec env m8 true inclV
      obtain ⟨p, m10, t10, h10, hdryt, _⟩ := wfAfterState_spec env m9 b true
      simp [handleFullCleanupWorkflow, handleFullCleanupWorkflowWith, run_bind, run_pure, hb, h2, h3, h4, h5,
        h6, h7, h8, h9, h10, List.all_append, hdf, hr2 rfl, hr3 rfl, hr4 rfl, hr5 rfl, hr6 rfl,
        hr7 rfl, hr8 rfl, hr9 rfl, hdryt rfl]

theorem cacheOkEntry_not_err (d : Bool) (t : CacheTarget) (out : String) :
    (cacheOkEntry d t out).isErr = false := by
  cases d <;> cases t <;> rfl

theorem cleanupOne_run (home : String) (d : Bool) (targets : List String) (t : CacheTarget)
    (env : Env) (n : Nat) :
    (cleanupOne home d targets t).run env n =
      if targets.contains "all" || targets.contains t.key then
        match env n (cacheCmd home d t) with
        | .ok out => (.ok (some (cacheOkEntry d t out)), n + 1, [cacheCmd home d t])
        | .error e => (.ok (some (.error e)), n + 1, [cacheCmd home d t])
      else (.ok none, n, []) := by
  unfold cleanupOne
  by_cases hs : (targets.contains "all" || targets.contains t.key) = true
  · rw [if_pos hs, if_pos hs]
    rcases h : env n (cacheCmd home d t) with e | out <;>
      simp only [run_tryCatchE, run_bind, run_exec, run_pure, h] <;> rfl
  · rw [if_neg hs, if_neg hs]
    rfl

theorem cleanupOne_spec (home : String) (d : Bool) (targets : List String)
    (t tf : CacheTarget) (env : Env) (n : Nat) (m : String)
    (hfail : ∀ k, env k (cacheCmd home d tf) = .error m)
    (hok : ∀ t' k, t' ≠ tf → execOk (env k (cacheCmd home d t')) = true) :
    ∃ v n1 tr, (cleanupOne home d targets t).run env n = (.ok v, n1, tr) ∧
      ((targets.contains "all" || targets.contains t.key) = false → v = none) ∧
      ((targets.contains "all" || targets.contains t.key) = true → t = tf →
        v = some (.error m)) ∧
      ((targets.contains "all" || targets.contains t.key) = true → t ≠ tf →
        ∃ e, v = some e ∧ e.isErr = false) := by
  by_cases hs : (targets.contains "all" || targets.contains t.key) = true
  · by_cases htf : t = tf
    · subst htf
      refine ⟨some (.error m), n + 1, [cacheCmd home d t], ?_, ?_, ?_, ?_⟩
      · rw [cleanupOne_run, if_pos hs, hfail n]
      · intro hc; rw [hs] at hc; exact absurd hc (by decide)
      · intro _ _; rfl
      · intro _ hne; exact absurd rfl hne
    · have := hok t n htf
      rcases h : env n (cacheCmd home d t) with e | out
      · rw [h] at this; simp [execOk] at this
      · refine ⟨some (cacheOkEntry d t out), n + 1, [cacheCmd home d t], ?_, ?_, ?_, ?_⟩
        · rw [cleanupOne_run, if_pos hs, h]
        · intro hc; rw [hs] at hc; exact absurd hc (by decide)
        · intro _ hc; exact absurd hc htf
        · intro _ _; exact ⟨_, rfl, cacheOkEntry_not_err d t out⟩
  · simp only [Bool.not_eq_true] at hs
    refine ⟨none, n, [], ?_, ?_, ?_, ?_⟩
    · rw [cleanupOne_run, if_neg (by rw [hs]; decide)]
    · intro _; rfl
    · intro hc; rw [hs] at hc; exact absurd hc (by decide)
    · intro hc; rw [hs] at hc; exact absurd hc (by decide)

/-- C6: partial-failure isolation in `cleanup_caches`.  If the external
command of exactly one selected target fails (with message `m`) while
every other target's command succeeds, the handler still returns
normally; the failed target's entry is `{error: m}`, every other
selected target still carries its normal (non-error) entry, and
unselected targets have no entry — one target's failure never aborts the
processing of the remaining targets. -/
theorem c6_partial_failure_isolation :
    ∀ (env : Env) (home : String) (targets : List String) (dryRun : Bool)
      (tf : CacheTarget) (m : String) (n : Nat),
      (targets.contains "all" || targets.contains tf.key) = true →
      (∀ k, env k (cacheCmd home dryRun tf) = .error m) →
      (∀ t k, t ≠ tf → execOk (env k (cacheCmd home dryRun t)) = true) →
      ∃ res n1 tr,
        (handleCleanupCaches home
            { Args.empty with targets := some targets, dryRun := some dryRun }).run env n =
          (.ok res, n1, tr) ∧
        res.dryRun = dryRun ∧
        res.results.get tf = some (.error m) ∧
        (∀ t, t ≠ tf → (targets.contains "all" || targets.contains t.key) = true →
          ∃ e, res.results.get t = some e ∧ e.isErr = false) ∧
        (∀ t, (targets.contains "all" || targets.contains t.key) = false →
          res.results.get t = none) := by
  intro env home targets dryRun tf m n hsel hfail hok
  obtain ⟨v1, k1, tr1, e1, p1a, p1b, p1c⟩ :=
    cleanupOne_spec home dryRun targets .go tf env n m hfail hok
  obtain ⟨v2, k2, tr2, e2, p2a, p2b, p2c⟩ :=
    cleanupOne_spec home dryRun targets .brew tf env k1 m hfail hok
  obtain ⟨v3, k3, tr3, e3, p3a, p3b, p3c⟩ :=
    cleanupOne_spec home dryRun targets .npm tf env k2 m hfail hok
  obtain ⟨v4, k4, tr4, e4, p4a, p4b, p4c⟩ :=
    cleanupOne_spec home dryRun targets .pip tf env k3 m hfail hok
  obtain ⟨v5, k5, tr5, e5, p5a, p5b, p5c⟩ :=
    cleanupOne_spec home dryRun targets .chrome tf env k4 m hfail hok
  obtain ⟨v6, k6, tr6, e6, p6a, p6b, p6c⟩ :=
    cleanupOne_spec home dryRun targets .spotify tf env k5 m hfail hok
  simp only [handleCleanupCaches, handleCleanupCachesWith, run_bind, run_pure, Option.getD, e1, e2, e3, e4, e5, e6]
  refine ⟨_, _, _, rfl, rfl, ?_, ?_, ?_⟩
  · cases tf
    · exact p1b hsel rfl
    · exact p2b hsel rfl
    · exact p3b hsel rfl
    · exact p4b hsel rfl
    · exact p5b hsel rfl
    · exact p6b hsel rfl
  · intro t hne hsel'
    cases t
    · exact p1c hsel' hne
    · exact p2c hsel' hne
    · exact p3c hsel' hne
    · exact p4c hsel' hne
    · exact p5c hsel' hne
    · exact p6c hsel' hne
  · intro t hnot
    cases t
    · exact p1a hnot
    · exact p2a hnot
    · exact p3a hnot
    · exact p4a hnot
    · exact p5a hnot
    · exact p6a hnot

/-- C6 witness: the isolation theorem applied to a concrete `all` run in
which only the Homebrew command fails. -/
theorem c6_partial_failure_isolation_witness :
    ∃ res n1 tr,
      (handleCleanupCaches "h"
          { Args.empty with targets := some ["all"], dryRun := some false }).run
        (fun _ c => if c = cacheCmd "h" false .brew then .error "brew: not found"
                    else .ok "ok") 0 =
        (.ok res, n1, tr) ∧
      res.dryRun = false ∧
      res.results.get .brew = some (.error "brew: not found") ∧
      (∀ t, t ≠ .brew →
        ((["all"] : List String).contains "all" ||
          (["all"] : List String).contains t.key) = true →
        ∃ e, res.results.get t = some e ∧ e.isErr = false) ∧
      (∀ t, ((["all"] : List String).contains "all" ||
          (["all"] : List String).contains t.key) = false →
        res.results.get t = none) :=
  c6_partial_failure_isolation
    (fun _ c => if c = cacheCmd "h" false .brew then .error "brew: not found" else .ok "ok")
    "h" ["all"] false .brew "brew: not found" 0 (by decide)
    (fun _ => by rfl)
    (by intro t k hne; cases t <;> first | exact absurd rfl hne | rfl)

theorem handleDiskUsage_total (home : String) (args : Args) :
    MTotal (handleDiskUsage home args) :=
  mtotal_tryCatchE (fun _ => mtotal_pure _)

theorem handleGoCacheStatus_total : MTotal handleGoCacheStatus :=
  mtotal_tryCatchE (fun _ => mtotal_pure _)

theorem cleanupOne_total (home : String) (d : Bool) (targets : List String) (t : CacheTarget) :
    MTotal (cleanupOne home d targets t) :=
  mtotal_ite
    (mtotal_bind (mtotal_tryCatchE (fun _ => mtotal_pure _)) (fun _ => mtotal_pure _))
    (mtotal_pure _)

theorem handleCleanupCaches_total (home : String) (args : Args) :
    MTotal (handleCleanupCaches home args) := by
  unfold handleCleanupCaches handleCleanupCachesWith
  refine mtotal_bind (cleanupOne_total _ _ _ _) (fun _ => ?_)
  refine mtotal_bind (cleanupOne_total _ _ _ _) (fun _ => ?_)
  refine mtotal_bind (cleanupOne_total _ _ _ _) (fun _ => ?_)
  refine mtotal_bind (cleanupOne_total _ _ _ _) (fun _ => ?_)
  refine mtotal_bind (cleanupOne_total _ _ _ _) (fun _ => ?_)
  refine mtotal_bind (cleanupOne_total _ _ _ _) (fun _ => ?_)
  exact mtotal_pure _

theorem handleDockerCleanup_total (args : Args) : MTotal (handleDockerCleanup args) :=
  mtotal_tryCatchE (fun _ => mtotal_pure _)

theorem handleMemoryStatus_total : MTotal handleMemoryStatus :=
  mtotal_tryCatchE (fun _ => mtotal_pure _)

theorem handleCleanupRecommendations_total : MTotal handleCleanupRecommendations := by
  unfold handleCleanupRecommendations
  refine mtotal_bind (mtotal_tryCatchE (fun _ => mtotal_pure _)) (fun _ => ?_)
  refine mtotal_bind (mtotal_tryCatchE (fun _ => mtotal_pure _)) (fun _ => ?_)
  refine mtotal_bind (mtotal_tryCatchE (fun _ => mtotal_pure _)) (fun _ => ?_)
  refine mtotal_bind (mtotal_tryCatchE (fun _ => mtotal_pure _)) (fun _ => ?_)
  refine mtotal_bind (mtotal_tryCatchE (fun _ => mtotal_pure _)) (fun _ => ?_)
  exact mtotal_pure _

theorem handleEmptyTrash_total (args : Args) : MTotal (handleEmptyTrash args) :=
  mtotal_tryCatchE (fun _ => mtotal_pure _)

theorem wfBeforeState_total : MTotal wfBeforeState :=
  mtotal_tryCatchE (fun _ => mtotal_pure _)

theorem wfAfterState_total (d : Bool) (before : DiskState) : MTotal (wfAfterState d before) :=
  mtotal_ite (mtotal_tryCatchE (fun _ => mtotal_pure _)) (mtotal_pure _)

theorem handleFullCleanupWorkflow_total (home : String) (args : Args) :
    MTotal (handleFullCleanupWorkflow home args) := by
  unfold handleFullCleanupWorkflow handleFullCleanupWorkflowWith
  repeat first
    | exact mtotal_pure _
    | exact mtotal_tryCatchE (fun _ => mtotal_pure _)
    | exact wfBeforeState_total
    | exact wfAfterState_total _ _
    | exact analyzeDirSizes_total _ _
    | exact knownCachesScan_total _ _
    | exact cleanupOne_total _ _ _ _
    | refine mtotal_bind ?_ (fun _ => ?_)
    | split

theorem analyzeDirSizes_total (home : String) :
    ∀ l, MTotal (analyzeDirSizes home l)
  | [] => mtotal_pure _
  | _ :: rest =>
    mtotal_bind (mtotal_tryCatchE (fun _ => mtotal_pure _))
      (fun _ => mtotal_bind (analyzeDirSizes_total home rest) (fun _ => mtotal_pure _))

theorem knownCachesScan_total (home : String) :
    ∀ l, MTotal (knownCachesScan home l)
  | [] => mtotal_pure _
  | _ :: rest =>
    mtotal_bind (mtotal_tryCatchE (fun _ => mtotal_pure _))
      (fun _ => mtotal_bind (knownCachesScan_total home rest) (fun _ => mtotal_pure _))

theorem handleAnalyzeLibrary_total (home : String) : MTotal (handleAnalyzeLibrary home) := by
  unfold handleAnalyzeLibrary
  refine mtotal_bind (analyzeDirSizes_total _ _) (fun _ => ?_)
  refine mtotal_bind (mtotal_tryCatchE (fun _ => mtotal_pure _)) (fun _ => ?_)
  refine mtotal_bind (knownCachesScan_total _ _) (fun _ => ?_)
  exact mtotal_pure _

theorem handleDeveloperCleanup_total (home : String) (args : Args) :
    MTotal (handleDeveloperCleanup home args) := by
  unfold handleDeveloperCleanup handleDeveloperCleanupWith
  dsimp only []
  repeat first
    | exact mtotal_pure _
    | exact mtotal_tryCatchE (fun _ => mtotal_pure _)
    | exact wfBeforeState_total
    | exact wfAfterState_total _ _
    | exact analyzeDirSizes_total _ _
    | exact knownCachesScan_total _ _
    | exact cleanupOne_total _ _ _ _
    | refine mtotal_bind ?_ (fun _ => ?_)
    | split

theorem handleCpuUsage_total (args : Args) : MTotal (handleCpuUsage args) :=
  mtotal_tryCatchE (fun _ => mtotal_pure _)

theorem handleThermalStatus_total : MTotal handleThermalStatus :=
  mtotal_tryCatchE (fun _ => mtotal_pure _)

theorem handleBatteryHealth_total : MTotal handleBatteryHealth :=
  mtotal_tryCatchE (fun _ => mtotal_pure _)

theorem handleSystemInfo_total : MTotal handleSystemInfo :=
  mtotal_tryCatchE (fun _ => mtotal_pure _)

theorem handleProcessList_total (args : Args) : MTotal (handleProcessList args) :=
  mtotal_tryCatchE (fun _ => mtotal_pure _)

theorem handleKillProcess_total (args : Args) : MTotal (handleKillProcess args) :=
  mtotal_tryCatchE (fun _ => mtotal_pure _)

theorem handleStartupItems_total (args : Args) : MTotal (handleStartupItems args) :=
  mtotal_tryCatchE (fun _ => mtotal_pure _)

theorem handleNetworkStatus_total : MTotal handleNetworkStatus :=
  mtotal_tryCatchE (fun _ => mtotal_pure _)

/-- C4: every handler converts its failures in-band.  For every
registered tool name, every argument record and every behavior of the
external commands, the dispatched call returns normally (`resOk`) — no
exception crosses the handler boundary, because every failure path is
caught and reshaped into the handler's `{error: …}`-style record.  Only
dispatch on an unregistered name fails at the protocol level, with the
`Unknown tool` error.  The third part exhibits the catch shape on
`go_cache_status`: a failing `go env GOCACHE` becomes the in-band
record `{error: message, note: "Go may not be installed"}`. -/
theorem c4_failures_converted_in_band :
    (∀ name, name ∈ toolNames → ∀ (home : String) (args : Args) (env : Env) (n : Nat),
      resOk ((dispatch home name args).run env n) = true) ∧
    (∀ name, name ∉ toolNames → ∀ (home : String) (args : Args) (env : Env) (n : Nat),
      (dispatch home name args).run env n = (.error ("Unknown tool: " ++ name), n, [])) ∧
    (∀ (env : Env) (n : Nat) (msg : String), env n "go env GOCACHE" = .error msg →
      handleGoCacheStatus.run env n =
        (.ok (.err msg "Go may not be installed"), n + 1, ["go env GOCACHE"])) := by
  refine ⟨?_, ?_, ?_⟩
  · intro name hmem home args env n
    simp only [toolNames, tools, List.map_cons, List.map_nil, List.mem_cons,
      List.not_mem_nil, or_false] at hmem
    rcases hmem with rfl | rfl | rfl | rfl | rfl | rfl | rfl | rfl | rfl | rfl | rfl | rfl |
      rfl | rfl | rfl | rfl | rfl | rfl
    · exact mtotal_bind (handleDiskUsage_total home args) (fun _ => mtotal_pure _) env n
    · exact mtotal_bind handleGoCacheStatus_total (fun _ => mtotal_pure _) env n
    · exact mtotal_bind (handleCleanupCaches_total home args) (fun _ => mtotal_pure _) env n
    · exact mtotal_bind (handleDockerCleanup_total args) (fun _ => mtotal_pure _) env n
    · exact mtotal_bind handleMemoryStatus_total (fun _ => mtotal_pure _) env n
    · exact mtotal_bind handleCleanupRecommendations_total (fun _ => mtotal_pure _) env n
    · exact mtotal_bind (handleEmptyTrash_total args) (fun _ => mtotal_pure _) env n
    · exact mtotal_bind (handleFullCleanupWorkflow_total home args) (fun _ => mtotal_pure _) env n
    · exact mtotal_bind (handleAnalyzeLibrary_total home) (fun _ => mtotal_pure _) env n
    · exact mtotal_bind (handleDeveloperCleanup_total home args) (fun _ => mtotal_pure _) env n
    · exact mtotal_bind (handleCpuUsage_total args) (fun _ => mtotal_pure _) env n
    · exact mtotal_bind handleThermalStatus_total (fun _ => mtotal_pure _) env n
    · exact mtotal_bind handleBatteryHealth_total (fun _ => mtotal_pure _) env n
    · exact mtotal_bind handleSystemInfo_total (fun _ => mtotal_pure _) env n
    · exact mtotal_bind (handleProcessList_total args) (fun _ => mtotal_pure _) env n
    · exact mtotal_bind (handleKillProcess_total args) (fun _ => mtotal_pure _) env n
    · exact mtotal_bind (handleStartupItems_total args) (fun _ => mtotal_pure _) env n
    · exact mtotal_bind handleNetworkStatus_total (fun _ => mtotal_pure _) env n
  · intro name hmem home args env n
    unfold dispatch
    split
    all_goals try rfl
    all_goals
      exact absurd (by simp [toolNames, tools]) hmem
  · intro env n msg h
    simp [handleGoCacheStatus, run_tryCatchE, run_bind, run_exec, run_pure, h]

/-- C4 witness: a registered call returns normally, an unknown name
fails at the protocol level, and a failing `go env GOCACHE` yields the
in-band error record. -/
theorem c4_failures_converted_in_band_witness :
    resOk ((dispatch "h" "mac_disk_usage" Args.empty).run (fun _ _ => .ok "") 0) = true ∧
    (dispatch "h" "not_a_tool" Args.empty).run (fun _ _ => .ok "") 0 =
      (.error ("Unknown tool: " ++ "not_a_tool"), 0, []) ∧
    handleGoCacheStatus.run (fun _ _ => .error "spawn go ENOENT") 0 =
      (.ok (.err "spawn go ENOENT" "Go may not be installed"), 1, ["go env GOCACHE"]) :=
  ⟨c4_failures_converted_in_band.1 "mac_disk_usage" (by decide) "h" Args.empty _ 0,
   c4_failures_converted_in_band.2.1 "not_a_tool" (by decide) "h" Args.empty _ 0,
   c4_failures_converted_in_band.2.2 _ 0 "spawn go ENOENT" rfl⟩

/-- C9: default-filling idempotence.  For every registry entry, calling
the tool with the argument record in which every parameter that declares
a default is explicitly set to that default is literally the same
computation as calling it with the empty argument record — the handlers'
destructuring defaults coincide with the registry's declared
defaults. -/
theorem c9_default_filling_idempotent :
    ∀ t, t ∈ tools → ∀ (home : String),
      dispatch home t.tname (defaultArgs t) = dispatch home t.tname Args.empty := by
  intro t ht home
  simp only [tools, List.mem_cons, List.not_mem_nil, or_false] at ht
  rcases ht with rfl | rfl | rfl | rfl | rfl | rfl | rfl | rfl | rfl | rfl | rfl | rfl |
    rfl | rfl | rfl | rfl | rfl | rfl
  · exact congrArg (fun (m : M DiskUsageResult) => m >>= fun r => pure (ToolResult.diskUsage r)) rfl
  · exact congrArg (fun (m : M GoCacheStatusResult) => m >>= fun r => pure (ToolResult.goCacheStatus r)) rfl
  · exact congrArg (fun (m : M CleanupCachesResult) => m >>= fun r => pure (ToolResult.cleanupCaches r)) rfl
  · exact congrArg (fun (m : M DockerCleanupResult) => m >>= fun r => pure (ToolResult.cleanupDocker r)) rfl
  · exact congrArg (fun (m : M MemoryStatusResult) => m >>= fun r => pure (ToolResult.memoryStatus r)) rfl
  · exact congrArg (fun (m : M (List RecEntry)) => m >>= fun r => pure (ToolResult.cleanupRecommendations r)) rfl
  · exact congrArg (fun (m : M EmptyTrashResult) => m >>= fun r => pure (ToolResult.emptyTrash r)) rfl
  · exact congrArg (fun (m : M WorkflowResult) => m >>= fun r => pure (ToolResult.fullCleanupWorkflow r)) rfl
  · exact congrArg (fun (m : M AnalyzeLibraryResult) => m >>= fun r => pure (ToolResult.analyzeLibrary r)) rfl
  · exact congrArg (fun (m : M DeveloperCleanupResult) => m >>= fun r => pure (ToolResult.developerCleanup r)) rfl
  · exact congrArg (fun (m : M CpuUsageResult) => m >>= fun r => pure (ToolResult.cpuUsage r)) rfl
  · exact congrArg (fun (m : M ThermalStatusResult) => m >>= fun r => pure (ToolResult.thermalStatus r)) rfl
  · exact congrArg (fun (m : M BatteryHealthResult) => m >>= fun r => pure (ToolResult.batteryHealth r)) rfl
  · exact congrArg (fun (m : M SystemInfoResult) => m >>= fun r => pure (ToolResult.systemInfo r)) rfl
  · exact congrArg (fun (m : M ProcessListResult) => m >>= fun r => pure (ToolResult.processList r)) rfl
  · exact congrArg (fun (m : M KillResult) => m >>= fun r => pure (ToolResult.killProcess r)) rfl
  · exact congrArg (fun (m : M StartupItemsResult) => m >>= fun r => pure (ToolResult.startupItems r)) rfl
  · exact congrArg (fun (m : M NetworkStatusResult) => m >>= fun r => pure (ToolResult.networkStatus r)) rfl

/-- C9 witness: the idempotence theorem applied to the `cleanup_caches`
registry entry. -/
theorem c9_default_filling_idempotent_witness :
    dispatch "h" "mac_cleanup_caches"
        (defaultArgs
          { tname := "mac_cleanup_caches",
            params := [
              { pname := "targets", defaultVal := some (.arr ["all"]),
                enumVals := some ["go", "brew", "npm", "pip", "chrome", "spotify", "all"] },
              { pname := "dryRun", defaultVal := some (.b false) }] }) =
      dispatch "h" "mac_cleanup_caches" Args.empty :=
  c9_default_filling_idempotent
    { tname := "mac_cleanup_caches",
      params := [
        { pname := "targets", defaultVal := some (.arr ["all"]),
          enumVals := some ["go", "brew", "npm", "pip", "chrome", "spotify", "all"] },
        { pname := "dryRun", defaultVal := some (.b false) }] }
    (by decide) "h"
